import Mathlib

/-!
# Verification of the music-sync matching engine

A shallow embedding, in Lean 4, of the core logic of the Apple-Music-to-Spotify
sync system:

* the data model (`models/data_models.py`),
* the similarity scorer (`_deprecated/activities/fuzzy_matcher.py`, identical in
  outcome to `fuzzy_match_standalone` in `_deprecated/executors/standalone_executor.py`),
* the AI-disambiguation boundary (`activities/ai_disambiguator.py`, the LangChain
  variant `_ai_disambiguate_with_langchain`; the Claude variant parses identically),
* the idempotent playlist-insert step (`_deprecated/activities/playlist_manager.py`),
* the retry combinator `execute_with_retry` and the standalone orchestrator
  `run_standalone_workflow` (`_deprecated/executors/standalone_executor.py`).

Python floats are modelled as exact rationals (`ℚ`); the score arithmetic of the
source stays within small dyadic/decimal fractions where this is faithful.
Python strings are modelled as Lean `String`s, with the handful of Python string
operations the source uses re-implemented structurally over the character list
(`pyLower`, `pyStrip`, …) so that concrete runs reduce inside the kernel.
Python truthiness of an optional string (`if self.album:`) is modelled by
`truthy`: `None` and `""` are falsy.
-/

namespace SpotifySync

/-! ## Python string primitives -/

/-- Python `str.lower()` (source strings are ASCII; `Char.toLower` agrees there). -/
def pyLower (s : String) : String := ⟨s.data.map Char.toLower⟩

/-- Python `str.upper()`. -/
def pyUpper (s : String) : String := ⟨s.data.map Char.toUpper⟩

/-- Python `str.strip()` on a character list: drop whitespace on both ends. -/
def stripList (l : List Char) : List Char :=
  ((l.dropWhile Char.isWhitespace).reverse.dropWhile Char.isWhitespace).reverse

/-- Python `str.strip()`. -/
def pyStrip (s : String) : String := ⟨stripList s.data⟩

/-- Python `str.split("\n")`: split on every newline, keeping empty pieces. -/
def splitNlList (l : List Char) : List (List Char) :=
  l.foldr
    (fun c acc =>
      if c = '\n' then [] :: acc
      else
        match acc with
        | h :: t => (c :: h) :: t
        | [] => [[c]])
    [[]]

/-- Python `str.split("\n")` returning strings. -/
def pySplitNl (s : String) : List String := (splitNlList s.data).map (⟨·⟩)

/-- Python `str.startswith(pre)`. -/
def pyStartswith (s pre : String) : Bool := pre.data.isPrefixOf s.data

/-- One step of Python `str.replace`: fuelled so the recursion is structural
(the fuel is the length of the subject, enough whenever the pattern is
non-empty, which holds at every call site: the patterns are `"URI:"` and
`"REASON:"`). -/
def pyReplaceAux (pat rep : List Char) : Nat → List Char → List Char
  | _, [] => []
  | 0, l => l
  | fuel + 1, c :: cs =>
    if pat.isPrefixOf (c :: cs) then rep ++ pyReplaceAux pat rep fuel ((c :: cs).drop pat.length)
    else c :: pyReplaceAux pat rep fuel cs

/-- Python `str.replace(pat, rep)` (replaces every occurrence, left to right). -/
def pyReplace (s pat rep : String) : String :=
  ⟨pyReplaceAux pat.data rep.data s.data.length s.data⟩

/-- `pat in s` for Python strings (substring containment). -/
def pyContainsAux (pat : List Char) : List Char → Bool
  | [] => pat.isPrefixOf []
  | c :: cs => pat.isPrefixOf (c :: cs) || pyContainsAux pat cs

/-- Python `pat in s`. -/
def pyContains (s pat : String) : Bool := pyContainsAux pat.data s.data

/-- Python truthiness of an optional string: `None` and `""` are falsy. -/
def truthy : Option String → Bool
  | none => false
  | some s => !(s == "")

/-! ## The fuzzy-ratio similarity

`rapidfuzz.fuzz.ratio` is the normalized InDel similarity
`100 * (1 - indel(a,b)/(|a|+|b|))` with `indel(a,b) = |a| + |b| - 2·lcs(a,b)`,
i.e. `100 * 2·lcs(a,b)/(|a|+|b|)`, and `100` for two empty strings.  The source
always divides the ratio by `100.0`, so the embedding works directly in `[0,1]`.
-/

/-- Longest-common-subsequence row step (structural helper for `lcs`). -/
def lcsStep (a : Char) (f : List Char → Nat) : List Char → Nat
  | [] => 0
  | b :: bs => if a = b then f bs + 1 else max (lcsStep a f bs) (f (b :: bs))

/-- Longest common subsequence length of two character lists. -/
def lcs : List Char → List Char → Nat
  | [], _ => 0
  | a :: as, l => lcsStep a (lcs as) l

/-- `fuzz.ratio(a, b) / 100`: normalized InDel similarity in `[0,1]`. -/
def fuzzRatio01 (a b : String) : ℚ :=
  if a.data.length + b.data.length = 0 then 1
  else (2 * lcs a.data b.data : ℚ) / (a.data.length + b.data.length)

/-- `fuzz.ratio(x.lower(), y.lower()) / 100.0` as the source computes every
component score. -/
def sim (x y : String) : ℚ := fuzzRatio01 (pyLower x) (pyLower y)

/-! ## Data model (`models/data_models.py`) -/

/-- `SongMetadata`: the source record (Apple Music side). -/
structure SongMetadata where
  title : String
  artist : String
  album : Option String := none
  duration_ms : Option Nat := none
  isrc : Option String := none
  deriving DecidableEq, Repr

/-- `SongMetadata.to_search_query`: the Spotify query the search step sends. -/
def SongMetadata.to_search_query (m : SongMetadata) : String :=
  let query := "track:" ++ m.title ++ " artist:" ++ m.artist
  if truthy m.album then query ++ " album:" ++ m.album.getD "" else query

/-- `SpotifyTrackResult`: one candidate returned by the catalog search. -/
structure SpotifyTrackResult where
  track_id : String
  track_name : String
  artist_name : String
  album_name : String
  spotify_uri : String
  duration_ms : Nat
  popularity : Nat
  release_date : String
  isrc : Option String := none
  deriving DecidableEq, Repr

/-- `FuzzyMatchScore`: one scored candidate (the spec's `ScoredCandidate`;
`isrc_match` is the spec's `externalIdMatch`). -/
structure FuzzyMatchScore where
  track : SpotifyTrackResult
  combined_score : ℚ
  title_score : ℚ
  artist_score : ℚ
  album_score : ℚ
  isrc_match : Bool
  deriving DecidableEq, Repr

/-- The dictionary `fuzzy_match_tracks` returns (the spec's `MatchDecision`
plus the ordered score list).  The source's method strings map onto the spec's
enum as `"isrc"` = `exact_id`, `"fuzzy"` = `similarity`, `"none"` = `none`. -/
structure MatchOutcome where
  is_match : Bool
  confidence : ℚ
  matched_track : Option SpotifyTrackResult
  match_method : String
  all_scores : List FuzzyMatchScore
  deriving DecidableEq, Repr

/-! ## The similarity scorer (`fuzzy_match_tracks`) -/

/-- The ISRC exact-tie test of `fuzzy_match_tracks`:
`if original_metadata.isrc and result.isrc: if original_metadata.isrc == result.isrc`.
Python truthiness makes an empty-string ISRC count as absent. -/
def isrcTie (m : SongMetadata) (r : SpotifyTrackResult) : Bool :=
  truthy m.isrc && truthy r.isrc && (m.isrc == r.isrc)

/-- The per-candidate score computation inside the loop of `fuzzy_match_tracks`
(lines 48-92 of `_deprecated/activities/fuzzy_matcher.py`). -/
def scoreCandidate (m : SongMetadata) (r : SpotifyTrackResult) : FuzzyMatchScore :=
  let title_score := sim m.title r.track_name
  let artist_score := sim m.artist r.artist_name
  let album_score :=
    if truthy m.album && truthy (some r.album_name) then sim (m.album.getD "") r.album_name
    else 0
  if isrcTie m r then
    { track := r, combined_score := 1, title_score := title_score,
      artist_score := artist_score, album_score := album_score, isrc_match := true }
  else
    { track := r,
      combined_score := title_score * 0.5 + artist_score * 0.35 + album_score * 0.15,
      title_score := title_score, artist_score := artist_score,
      album_score := album_score, isrc_match := false }

/-- The best-match tracking loop of `fuzzy_match_tracks`:
`if combined_score > best_score: best_score, best_match = combined_score, result`,
started from `best_score = 0.0`, `best_match = None`. -/
def bestLoop : List FuzzyMatchScore → ℚ → Option SpotifyTrackResult →
    ℚ × Option SpotifyTrackResult
  | [], b, m => (b, m)
  | s :: rest, b, m =>
    if b < s.combined_score then bestLoop rest s.combined_score (some s.track)
    else bestLoop rest b m

/-- Insertion step of the stable descending sort: an element passes every
earlier element with a strictly greater score and stops in front of the first
with an equal or smaller one, so equal scores keep their original order. -/
def insertDesc (x : FuzzyMatchScore) : List FuzzyMatchScore → List FuzzyMatchScore
  | [] => [x]
  | y :: ys =>
    if x.combined_score < y.combined_score then y :: insertDesc x ys else x :: y :: ys

/-- `all_scores.sort(key=lambda x: x.combined_score, reverse=True)`: Python's
sort is stable; a stable descending sort is modelled by insertion from the
right. -/
def sortDesc : List FuzzyMatchScore → List FuzzyMatchScore
  | [] => []
  | x :: xs => insertDesc x (sortDesc xs)

/-- `fuzzy_match_tracks(original_metadata, search_results, threshold)`
(`_deprecated/activities/fuzzy_matcher.py`; `fuzzy_match_standalone` computes
the same outcome). -/
def fuzzyMatch (m : SongMetadata) (search_results : List SpotifyTrackResult)
    (threshold : ℚ) : MatchOutcome :=
  if search_results = [] then
    { is_match := false, confidence := 0, matched_track := none,
      match_method := "none", all_scores := [] }
  else
    let scores := search_results.map (scoreCandidate m)
    let best := bestLoop scores 0 none
    let sorted := sortDesc scores
    let is_match := decide (threshold ≤ best.1)
    let match_method :=
      if is_match then
        match sorted.head? with
        | some top => if top.isrc_match then "isrc" else "fuzzy"
        | none => "fuzzy"
      else "none"
    { is_match := is_match, confidence := best.1,
      matched_track := if is_match then best.2 else none,
      match_method := match_method, all_scores := sorted }

/-! ## Lemmas about the stable descending sort -/

/-- The score order the sorted list satisfies (non-increasing `combined_score`). -/
def scoreGE (a b : FuzzyMatchScore) : Prop := b.combined_score ≤ a.combined_score

/-! ## Lemmas about the best-match tracking loop -/

/-- Running maximum of combined scores, seeded at `b`. -/
def maxFrom (l : List FuzzyMatchScore) (b : ℚ) : ℚ :=
  l.foldl (fun acc s => max acc s.combined_score) b

/-! ## The AI-disambiguation boundary (`activities/ai_disambiguator.py`)

`_ai_disambiguate_with_langchain` (the Claude variant parses identically).
The reasoning backend is an external collaborator; its outcome — a response
text, or a raised exception's message — is a parameter.  `ApplicationError`
models `temporalio`'s, with its `non_retryable` flag and `type`. -/

/-- The result dictionary of the disambiguation activity. -/
structure DisambResult where
  is_match : Bool
  confidence : ℚ
  matched_track : Option SpotifyTrackResult
  match_method : String
  reasoning : String
  deriving DecidableEq, Repr

/-- A raised `temporalio` `ApplicationError`. -/
structure ApplicationError where
  message : String
  non_retryable : Bool
  type : String
  deriving DecidableEq, Repr

/-- `content.strip().split("\n")`. -/
def responseLines (content : String) : List String := pySplitNl (pyStrip content)

/-- `next((l for l in lines if l.startswith("URI:")), None)`. -/
def uriLine (content : String) : Option String :=
  (responseLines content).find? (fun l => pyStartswith l "URI:")

/-- `next((l for l in lines if l.startswith("REASON:")), None)`. -/
def reasonLine (content : String) : Option String :=
  (responseLines content).find? (fun l => pyStartswith l "REASON:")

/-- The selector the response names: present only when both structured lines
are; `uri_line.replace("URI:", "").strip()`. -/
def selectedUri (content : String) : Option String :=
  match uriLine content, reasonLine content with
  | some u, some _ => some (pyStrip (pyReplace u "URI:" ""))
  | _, _ => none

/-- The inner parse of the AI response (lines 162-218 of
`activities/ai_disambiguator.py`): the `try` around line extraction with its
`except (ValueError, StopIteration)` handler. -/
def parseAIResponse (candidates : List SpotifyTrackResult) (content : String) :
    DisambResult :=
  match uriLine content, reasonLine content with
  | some u, some rl =>
    let selected_uri := pyStrip (pyReplace u "URI:" "")
    let reasoning := pyStrip (pyReplace rl "REASON:" "")
    if pyUpper selected_uri = "NONE" then
      { is_match := false, confidence := 0, matched_track := none,
        match_method := "ai", reasoning := reasoning }
    else
      match candidates.find? (fun c => c.spotify_uri == selected_uri) with
      | some t =>
        { is_match := true, confidence := 0.9, matched_track := some t,
          match_method := "ai", reasoning := reasoning }
      | none =>
        { is_match := false, confidence := 0, matched_track := none,
          match_method := "ai_failed",
          reasoning := "AI returned invalid URI: " ++ selected_uri }
  | _, _ =>
    { is_match := false, confidence := 0, matched_track := none,
      match_method := "ai_failed",
      reasoning :=
        "Failed to parse AI response: AI response missing URI or REASON" }

/-- The error classification of the outer `except Exception` handler:
`"api key" in str(e).lower() or "authentication" in str(e).lower()`. -/
def isAuthError (e : String) : Bool :=
  pyContains (pyLower e) "api key" || pyContains (pyLower e) "authentication"

/-- `_ai_disambiguate_with_langchain(original_metadata, candidates, fuzzy_scores)`
as a function of the backend call's outcome (`.ok content` — the LLM replied —
or `.error msg` — the call raised).  Prompt construction is pure and cannot
raise; `fuzzy_scores` only feeds the prompt text, so it does not appear. -/
def aiDisambiguate (candidates : List SpotifyTrackResult)
    (backend : Except String String) : Except ApplicationError DisambResult :=
  if candidates = [] then
    .ok { is_match := false, confidence := 0, matched_track := none,
          match_method := "ai_failed", reasoning := "No candidates provided" }
  else
    match backend with
    | .ok content => .ok (parseAIResponse candidates content)
    | .error e =>
      if isAuthError e then
        .error { message := "Invalid OpenAI API key: " ++ e,
                 non_retryable := true, type := "InvalidAPIKeyError" }
      else
        .error { message := "AI disambiguation error: " ++ e,
                 non_retryable := false, type := "AIDisambiguationError" }

/-- The response parsing of `_ai_disambiguate_claude`
(`_deprecated/executors/standalone_executor.py` lines 360-398; the standalone
`_ai_disambiguate_langchain` parses identically at lines 459-497).  Unlike the
Temporal activity, this code has NO try/except: a response missing the `URI:`
or `REASON:` line raises `ValueError("Claude response missing URI or REASON")`
uncaught — modelled as the `.error` side, carrying the raw exception message
(a `String`, not a classified `ApplicationError`).  The empty-candidates guard
lives in the dispatcher `ai_disambiguate_standalone`, before these lines. -/
def parseClaudeResponse (candidates : List SpotifyTrackResult)
    (content : String) : Except String DisambResult :=
  match uriLine content, reasonLine content with
  | some u, some rl =>
    let selected_uri := pyStrip (pyReplace u "URI:" "")
    let reasoning := pyStrip (pyReplace rl "REASON:" "")
    if pyUpper selected_uri = "NONE" then
      .ok { is_match := false, confidence := 0, matched_track := none,
            match_method := "ai_claude", reasoning := reasoning }
    else
      match candidates.find? (fun c => c.spotify_uri == selected_uri) with
      | some t =>
        .ok { is_match := true, confidence := 0.9, matched_track := some t,
              match_method := "ai_claude", reasoning := reasoning }
      | none =>
        .ok { is_match := false, confidence := 0, matched_track := none,
              match_method := "ai_failed",
              reasoning := "Claude returned invalid URI: " ++ selected_uri }
  | _, _ => .error "ValueError: Claude response missing URI or REASON"

/-- The whole standalone disambiguation boundary: backend failure propagates
raw; a response is parsed by `parseClaudeResponse` with the missing-line
`ValueError` escaping. -/
def aiDisambiguateClaude (candidates : List SpotifyTrackResult)
    (backend : Except String String) : Except String DisambResult :=
  match backend with
  | .error e => .error e
  | .ok content => parseClaudeResponse candidates content

/-! ## The idempotent playlist-insert step
(`_deprecated/activities/playlist_manager.py`)

Modelled from the spec for the catalog side: §4.2 — `Insert` appends to the
playlist and "is not naturally idempotent at the catalog layer (repeated calls
may duplicate entries)"; `Exists` is a membership scan.  The playlist state is
the list of `(playlist_id, track_uri)` membership entries; the step's
check-then-insert logic is from `add_track_to_playlist`. -/

/-- Playlist membership state: one entry per inserted `(playlist, track)`. -/
abbrev PlaylistState : Type := List (String × String)

/-- Catalog `Exists(trackUri, playlistId)`: a membership scan. -/
def existsInPlaylist (st : PlaylistState) (track_uri playlist_id : String) : Bool :=
  st.contains (playlist_id, track_uri)

/-- Catalog `Insert(trackUri, playlistId)`: appends an entry, duplicating if
called again. -/
def insertEntry (st : PlaylistState) (track_uri playlist_id : String) :
    PlaylistState :=
  st ++ [(playlist_id, track_uri)]

/-- `add_track_to_playlist(track_uri, playlist_id, user_id)` (happy path):
check `Exists` first; skip `Insert` when already present.  Returns the
`status` field of the result dictionary and the catalog state afterwards. -/
def addTrackToPlaylist (st : PlaylistState) (track_uri playlist_id : String) :
    String × PlaylistState :=
  if existsInPlaylist st track_uri playlist_id then ("already_exists", st)
  else ("added", insertEntry st track_uri playlist_id)

/-- Membership-entry count of one `(playlist, track)` pair. -/
def entryCount (st : PlaylistState) (track_uri playlist_id : String) : Nat :=
  st.count (playlist_id, track_uri)

/-! ## `execute_with_retry` (`_deprecated/executors/standalone_executor.py`)

The function under retry is modelled by the sequence of outcomes of its
successive invocations (`outcomes i` is what the `i`-th call returns or
raises).  The trace records the result, how many invocations were made, and
the successive `asyncio.sleep` delays. -/

/-- What one run of `execute_with_retry` did. -/
structure RetryTrace (α : Type) where
  result : Except String α
  attempts : Nat
  sleeps : List ℚ
  deriving Repr

/-- The `for attempt in range(1, max_attempts + 1)` loop, with `remaining`
attempts left and the current `delay`.  `remaining = 0` is Python's
`raise last_exception` with `last_exception = None` (a `TypeError`); it is
unreachable when `max_attempts ≥ 1`. -/
def retryLoop {α : Type} (outcomes : Nat → Except String α) (backoff : ℚ) :
    Nat → Nat → ℚ → RetryTrace α
  | _, 0, _ =>
    { result := .error "TypeError: exceptions must derive from BaseException",
      attempts := 0, sleeps := [] }
  | i, 1, _ => { result := outcomes i, attempts := 1, sleeps := [] }
  | i, remaining + 2, delay =>
    match outcomes i with
    | .ok v => { result := .ok v, attempts := 1, sleeps := [] }
    | .error _ =>
      let rest := retryLoop outcomes backoff (i + 1) (remaining + 1) (delay * backoff)
      { result := rest.result, attempts := rest.attempts + 1,
        sleeps := delay :: rest.sleeps }

/-- `execute_with_retry(func, *args, max_attempts, initial_delay, backoff)`. -/
def executeWithRetry {α : Type} (outcomes : Nat → Except String α)
    (max_attempts : Nat) (initial_delay backoff : ℚ) : RetryTrace α :=
  retryLoop outcomes backoff 0 max_attempts initial_delay

/-- The geometric delay schedule `initial, initial·backoff, initial·backoff², …`. -/
def geomDelays (initial backoff : ℚ) (k : Nat) : List ℚ :=
  (List.range k).map (fun t => initial * backoff ^ t)

/-! ## The standalone orchestrator (`run_standalone_workflow`)

Each external step is represented by the outcome of its retry envelope: a
value, or the exception `execute_with_retry` re-raises once its attempts are
exhausted (the claim C10 theorems justify collapsing the envelope to one
outcome).  Wall-clock fields (`execution_time_seconds`) are outside the
shallow embedding and omitted. -/

/-- `WorkflowInput` (`models/data_models.py`). -/
structure WorkflowInput where
  song_metadata : SongMetadata
  playlist_id : String
  user_id : String
  match_threshold : ℚ := 0.85
  use_ai_disambiguation : Bool := true
  deriving Repr

/-- `WorkflowResult` (`models/data_models.py`, timing field omitted). -/
structure WorkflowResult where
  success : Bool
  message : String
  spotify_track_id : Option String := none
  spotify_track_uri : Option String := none
  confidence_score : ℚ := 0
  match_method : Option String := none
  deriving DecidableEq, Repr

/-- The decision fields the tail of the workflow reads, common to the fuzzy
dictionary and the AI dictionary that may replace it. -/
structure Decision where
  is_match : Bool
  confidence : ℚ
  matched_track : Option SpotifyTrackResult
  match_method : String
  deriving Repr

/-- Outcomes of the external collaborators, one per step envelope. -/
structure Behavior where
  search : Except String (List SpotifyTrackResult)
  ai : Except String DisambResult
  add : Except String String
  verify : Except String Bool

/-- What one run produced: the terminal `status`/`result`/`error` of
`StandaloneWorkflowState`, plus the candidate list passed to the AI
disambiguation step when that step ran (for observing step 2.5). -/
structure RunOutput where
  status : String
  result : WorkflowResult
  error : Option String
  aiCalledWith : Option (List SpotifyTrackResult)
  deriving Repr

/-- The `except Exception` tail of `run_standalone_workflow`: state `failed`,
`error` recorded, result `"Workflow failed: …"`. -/
def failedRun (e : String) (aiArgs : Option (List SpotifyTrackResult)) : RunOutput :=
  { status := "failed",
    result := { success := false, message := "Workflow failed: " ++ e },
    error := some e, aiCalledWith := aiArgs }

/-- Steps 3-4 and the terminal bookkeeping of `run_standalone_workflow`
(threshold re-check, playlist insert, verification, success result).
Python renders the numbers with `%.2f`; the embedding uses `toString`. -/
def finishRun (input : WorkflowInput) (b : Behavior) (dec : Decision)
    (aiArgs : Option (List SpotifyTrackResult)) : RunOutput :=
  if dec.is_match = false then
    { status := "completed"
      result :=
        { success := false
          message := "No match above threshold " ++ toString input.match_threshold ++
            " (best match: " ++ toString dec.confidence ++ ")"
          confidence_score := dec.confidence
          match_method := some dec.match_method }
      error := none
      aiCalledWith := aiArgs }
  else
    match dec.matched_track with
    | none =>
      -- `match_result["matched_track"].spotify_uri` on `None`: the
      -- `AttributeError` is caught by the top-level handler.
      failedRun "AttributeError: 'NoneType' object has no attribute 'spotify_uri'"
        aiArgs
    | some t =>
      match b.add with
      | .error e => failedRun e aiArgs
      | .ok _ =>
        -- Step 4: `verify_track_standalone` catches its own exceptions and
        -- returns `is_added = False`; the value only feeds a warning log.
        let _is_added : Bool := match b.verify with | .ok v => v | .error _ => false
        { status := "completed"
          result :=
            { success := true
              message := "Successfully added '" ++ t.track_name ++ "' by " ++
                t.artist_name ++ " to playlist"
              spotify_track_id := some t.track_id
              spotify_track_uri := some t.spotify_uri
              confidence_score := dec.confidence
              match_method := some dec.match_method }
          error := none
          aiCalledWith := aiArgs }

/-- The decision fields of the fuzzy dictionary. -/
def MatchOutcome.decision (mr : MatchOutcome) : Decision :=
  { is_match := mr.is_match, confidence := mr.confidence,
    matched_track := mr.matched_track, match_method := mr.match_method }

/-- The decision fields of the AI dictionary. -/
def DisambResult.decision (aiR : DisambResult) : Decision :=
  { is_match := aiR.is_match, confidence := aiR.confidence,
    matched_track := aiR.matched_track, match_method := aiR.match_method }

/-- Steps 2.5 onward of `run_standalone_workflow`, given the fuzzy-match
dictionary `mr`: the conditional AI disambiguation (passing
`search_results[:5]`), the override `match_result = ai_match_result` when the
AI result matches, and the tail of the run. -/
def afterMatch (input : WorkflowInput) (b : Behavior)
    (search_results : List SpotifyTrackResult) (mr : MatchOutcome) : RunOutput :=
  if mr.is_match = false ∧ input.use_ai_disambiguation = true then
    match b.ai with
    | .error e => failedRun e (some (search_results.take 5))
    | .ok aiR =>
      finishRun input b (if aiR.is_match then aiR.decision else mr.decision)
        (some (search_results.take 5))
  else finishRun input b mr.decision none

/-- `run_standalone_workflow(workflow_id, input_data)` (lines 533-692 of
`_deprecated/executors/standalone_executor.py`). -/
def runStandalone (input : WorkflowInput) (b : Behavior) : RunOutput :=
  match b.search with
  | .error e => failedRun e none
  | .ok search_results =>
    if search_results = [] then
      { status := "completed"
        result :=
          { success := false
            message := "No tracks found on Spotify for '" ++
              input.song_metadata.title ++ "'" }
        error := none
        aiCalledWith := none }
    else
      afterMatch input b search_results
        (fuzzyMatch input.song_metadata search_results input.match_threshold)

/-- Modelled from the spec: "Call Disambiguation Client with top 5 candidates
by score" — the first five entries of the score-sorted candidate list.  Stated
only to compare with what the code actually passes. -/
def topFiveByScore (m : SongMetadata) (search_results : List SpotifyTrackResult)
    (threshold : ℚ) : List SpotifyTrackResult :=
  ((fuzzyMatch m search_results threshold).all_scores.take 5).map (·.track)

/-- Modelled from the spec: the query of §4.4 step 1, "structured filters
(`title:`, `artist:`, optional `album:`)".  Stated only to compare with
`SongMetadata.to_search_query`. -/
def specSearchQuery (m : SongMetadata) : String :=
  let query := "title:" ++ m.title ++ " artist:" ++ m.artist
  if truthy m.album then query ++ " album:" ++ m.album.getD "" else query

/-! ## Concrete inputs for counterexamples and witnesses -/

/-- A source record with title `"aa"`, artist `"bb"`, no album, no ISRC. -/
def songAB : SongMetadata := { title := "aa", artist := "bb" }

/-- A candidate completely dissimilar to `songAB`. -/
def trackXY : SpotifyTrackResult :=
  { track_id := "t1", track_name := "xy", artist_name := "zw", album_name := "",
    spotify_uri := "spotify:track:1", duration_ms := 200, popularity := 10,
    release_date := "2020" }

/-- A source record carrying an ISRC and full text metadata. -/
def songFull : SongMetadata :=
  { title := "a", artist := "b", album := some "c", isrc := some "z" }

/-- A candidate whose text matches `songFull` perfectly but with no ISRC. -/
def trackText : SpotifyTrackResult :=
  { track_id := "tA", track_name := "a", artist_name := "b", album_name := "c",
    spotify_uri := "spotify:track:A", duration_ms := 1, popularity := 1,
    release_date := "2020" }

/-- A candidate with dissimilar text but the same ISRC as `songFull`. -/
def trackIsrc : SpotifyTrackResult :=
  { track_id := "tB", track_name := "x", artist_name := "y", album_name := "q",
    spotify_uri := "spotify:track:B", duration_ms := 1, popularity := 1,
    release_date := "2020", isrc := some "z" }

/-- Five background candidates dissimilar to the `"ab"/"cd"` source. -/
def bgTrack (i : String) : SpotifyTrackResult :=
  { track_id := "bg" ++ i, track_name := "xy", artist_name := "zw",
    album_name := "", spotify_uri := "spotify:track:bg" ++ i, duration_ms := 1,
    popularity := 1, release_date := "2020" }

/-- The sixth candidate: best by score (title matches, artist does not). -/
def hitTrack : SpotifyTrackResult :=
  { track_id := "hit", track_name := "ab", artist_name := "zz", album_name := "",
    spotify_uri := "spotify:track:hit", duration_ms := 1, popularity := 1,
    release_date := "2020" }

/-- Source record for the six-candidate run. -/
def songC5 : SongMetadata := { title := "ab", artist := "cd" }

/-- The six search results, the best-scoring one LAST in input order. -/
def sixResults : List SpotifyTrackResult :=
  [bgTrack "1", bgTrack "2", bgTrack "3", bgTrack "4", bgTrack "5", hitTrack]

/-- An AI result declining to select. -/
def aiDecline : DisambResult :=
  { is_match := false, confidence := 0, matched_track := none,
    match_method := "ai", reasoning := "none of these" }

/-- Input for the six-candidate run (threshold 0.9, disambiguation allowed). -/
def inputC5 : WorkflowInput :=
  { song_metadata := songC5, playlist_id := "p", user_id := "u",
    match_threshold := 0.9, use_ai_disambiguation := true }

/-- Collaborator outcomes for the six-candidate run. -/
def behaviorC5 : Behavior :=
  { search := .ok sixResults, ai := .ok aiDecline, add := .ok "snap",
    verify := .ok true }

/-- A behavior whose search returns no candidates. -/
def behaviorEmpty : Behavior :=
  { search := .ok [], ai := .ok aiDecline, add := .ok "snap", verify := .ok true }

/-- Input for the empty-search run. -/
def inputAB : WorkflowInput :=
  { song_metadata := songAB, playlist_id := "p", user_id := "u" }

/-- Invocation outcomes failing once and then succeeding, for the retry witness. -/
def flakyOutcomes : Nat → Except String Nat :=
  fun i => if i = 0 then .error "boom" else .ok 42

/-! ## Theorems -/

theorem lcs_nil_right : ∀ l : List Char, lcs l [] = 0
  | [] => rfl
  | _ :: as => by simp [lcs, lcsStep, lcs_nil_right as]

theorem lcs_cons_cons (a b : Char) (as bs : List Char) :
    lcs (a :: as) (b :: bs) =
      if a = b then lcs as bs + 1 else max (lcs (a :: as) bs) (lcs as (b :: bs)) := by
  simp [lcs, lcsStep]

theorem lcs_le_left : ∀ xs ys : List Char, lcs xs ys ≤ xs.length
  | [], _ => by simp [lcs]
  | _ :: _, [] => by simp [lcs_nil_right]
  | x :: xs, y :: ys => by
    rw [lcs_cons_cons]
    split
    · have := lcs_le_left xs ys
      simpa using Nat.succ_le_succ this
    · have h1 := lcs_le_left (x :: xs) ys
      have h2 := lcs_le_left xs (y :: ys)
      simp only [List.length_cons] at h1 h2 ⊢
      omega

theorem lcs_le_right : ∀ xs ys : List Char, lcs xs ys ≤ ys.length
  | [], _ => by simp [lcs]
  | _ :: _, [] => by simp [lcs_nil_right]
  | x :: xs, y :: ys => by
    rw [lcs_cons_cons]
    split
    · have := lcs_le_right xs ys
      simpa using Nat.succ_le_succ this
    · have h1 := lcs_le_right (x :: xs) ys
      have h2 := lcs_le_right xs (y :: ys)
      simp only [List.length_cons] at h1 h2 ⊢
      omega

theorem lcs_self : ∀ xs : List Char, lcs xs xs = xs.length
  | [] => rfl
  | x :: xs => by rw [lcs_cons_cons]; simp [lcs_self xs]

theorem fuzzRatio01_nonneg (a b : String) : 0 ≤ fuzzRatio01 a b := by
  unfold fuzzRatio01
  split
  · norm_num
  · positivity

theorem fuzzRatio01_le_one (a b : String) : fuzzRatio01 a b ≤ 1 := by
  unfold fuzzRatio01
  split
  · norm_num
  · rename_i h
    have hpos : (0 : ℚ) < (a.data.length : ℚ) + (b.data.length : ℚ) := by
      have : 0 < a.data.length + b.data.length := Nat.pos_of_ne_zero h
      exact_mod_cast this
    rw [div_le_one hpos]
    have h1 : (lcs a.data b.data : ℚ) ≤ a.data.length := by
      exact_mod_cast lcs_le_left a.data b.data
    have h2 : (lcs a.data b.data : ℚ) ≤ b.data.length := by
      exact_mod_cast lcs_le_right a.data b.data
    nlinarith [h1, h2]

theorem fuzzRatio01_self (a : String) : fuzzRatio01 a a = 1 := by
  unfold fuzzRatio01
  split
  · rfl
  · rename_i h
    rw [lcs_self]
    rw [div_eq_one_iff_eq (by exact_mod_cast h)]
    ring

theorem sim_nonneg (x y : String) : 0 ≤ sim x y := fuzzRatio01_nonneg _ _

theorem sim_le_one (x y : String) : sim x y ≤ 1 := fuzzRatio01_le_one _ _

theorem sim_self (x : String) : sim x x = 1 := fuzzRatio01_self _

theorem insertDesc_perm (x : FuzzyMatchScore) :
    ∀ l : List FuzzyMatchScore, (insertDesc x l).Perm (x :: l)
  | [] => List.Perm.refl _
  | y :: ys => by
    rw [insertDesc]
    split
    · exact ((insertDesc_perm x ys).cons y).trans (List.Perm.swap x y ys)
    · exact List.Perm.refl _

theorem sortDesc_perm : ∀ l : List FuzzyMatchScore, (sortDesc l).Perm l
  | [] => List.Perm.refl _
  | x :: xs =>
    (insertDesc_perm x (sortDesc xs)).trans ((sortDesc_perm xs).cons x)

theorem sorted_insertDesc (x : FuzzyMatchScore) :
    ∀ l : List FuzzyMatchScore, l.Sorted scoreGE → (insertDesc x l).Sorted scoreGE
  | [], _ => by simp [insertDesc, scoreGE]
  | y :: ys, h => by
    rw [insertDesc]
    have hy := List.sorted_cons.mp h
    split
    · rename_i hlt
      rw [List.sorted_cons]
      refine ⟨fun z hz => ?_, sorted_insertDesc x ys hy.2⟩
      rcases List.mem_cons.mp ((insertDesc_perm x ys).mem_iff.mp hz) with h' | h'
      · subst h'; exact le_of_lt hlt
      · exact hy.1 z h'
    · rename_i hge
      rw [List.sorted_cons]
      refine ⟨fun z hz => ?_, h⟩
      rcases List.mem_cons.mp hz with h' | h'
      · subst h'; exact not_lt.mp hge
      · exact le_trans (hy.1 z h') (not_lt.mp hge)

theorem sortDesc_sorted : ∀ l : List FuzzyMatchScore, (sortDesc l).Sorted scoreGE
  | [] => List.sorted_nil
  | x :: xs => sorted_insertDesc x (sortDesc xs) (sortDesc_sorted xs)

/-- Stability of one insertion, seen through any filter that pins the score:
such a filter cannot keep both an element passed over and the inserted one. -/
theorem filter_insertDesc (p : FuzzyMatchScore → Bool)
    (hp : ∀ a b, p a = true → p b = true → a.combined_score = b.combined_score)
    (x : FuzzyMatchScore) :
    ∀ l : List FuzzyMatchScore, (insertDesc x l).filter p = (x :: l).filter p
  | [] => rfl
  | y :: ys => by
    rw [insertDesc]
    split
    · rename_i hlt
      have hxy : ¬(p x = true ∧ p y = true) := by
        rintro ⟨hx, hy⟩
        exact absurd (hp x y hx hy) (ne_of_lt hlt)
      by_cases hy : p y = true
      · have hx : p x = false := by
          cases hpx : p x
          · rfl
          · exact absurd ⟨hpx, hy⟩ hxy
        simp only [List.filter_cons, hx, hy]
        simp only [Bool.false_eq_true, if_false, if_true]
        have := filter_insertDesc p hp x ys
        simp only [List.filter_cons, hx, Bool.false_eq_true, if_false] at this
        simp [this]
      · have hy' : p y = false := by
          cases hpy : p y
          · rfl
          · exact absurd hpy hy
        simp only [List.filter_cons, hy', Bool.false_eq_true, if_false]
        have := filter_insertDesc p hp x ys
        simpa [List.filter_cons] using this
    · simp [List.filter_cons]

/-- Stability of the whole sort: filtering to any one score value gives the
same subsequence, in the same order, as filtering the input. -/
theorem filter_sortDesc (p : FuzzyMatchScore → Bool)
    (hp : ∀ a b, p a = true → p b = true → a.combined_score = b.combined_score) :
    ∀ l : List FuzzyMatchScore, (sortDesc l).filter p = l.filter p
  | [] => rfl
  | x :: xs => by
    rw [sortDesc, filter_insertDesc p hp, List.filter_cons, List.filter_cons,
      filter_sortDesc p hp xs]

theorem head?_filter (p : FuzzyMatchScore → Bool) :
    ∀ l : List FuzzyMatchScore, (l.filter p).head? = l.find? p
  | [] => rfl
  | x :: xs => by
    cases hpx : p x with
    | true => simp [List.filter_cons, List.find?_cons, hpx]
    | false => simp [List.filter_cons, List.find?_cons, hpx, head?_filter p xs]

theorem find?_congr {p q : FuzzyMatchScore → Bool} :
    ∀ l : List FuzzyMatchScore, (∀ a ∈ l, p a = q a) → l.find? p = l.find? q
  | [], _ => rfl
  | x :: xs, h => by
    rw [List.find?_cons, List.find?_cons, h x (List.mem_cons_self x xs)]
    split
    · rfl
    · exact find?_congr xs fun a ha => h a (List.mem_cons_of_mem x ha)

/-- The head of the sorted list scores at least every input element. -/
theorem sortDesc_head_max {l : List FuzzyMatchScore} {x : FuzzyMatchScore}
    (h : (sortDesc l).head? = some x) :
    ∀ y ∈ l, y.combined_score ≤ x.combined_score := by
  intro y hy
  obtain ⟨t, ht⟩ : ∃ t, sortDesc l = x :: t := by
    cases hs : sortDesc l with
    | nil => rw [hs] at h; exact absurd h (by simp)
    | cons a t => rw [hs] at h; simp at h; exact ⟨t, by rw [h]⟩
  have hsorted := sortDesc_sorted l
  rw [ht, List.sorted_cons] at hsorted
  have : y ∈ x :: t := ht ▸ (sortDesc_perm l).symm.subset hy
  rcases List.mem_cons.mp this with h' | h'
  · exact le_of_eq (by rw [h'])
  · exact hsorted.1 y h'

/-- The head of the sorted list is the FIRST input element attaining its
score — the stability half of the sort contract. -/
theorem sortDesc_head_find {l : List FuzzyMatchScore} {x : FuzzyMatchScore}
    (h : (sortDesc l).head? = some x) :
    l.find? (fun s => s.combined_score == x.combined_score) = some x := by
  have hp : ∀ a b : FuzzyMatchScore,
      (fun s : FuzzyMatchScore => s.combined_score == x.combined_score) a = true →
      (fun s : FuzzyMatchScore => s.combined_score == x.combined_score) b = true →
      a.combined_score = b.combined_score := by
    intro a b ha hb
    simp only [beq_iff_eq] at ha hb
    rw [ha, hb]
  have hfilters := filter_sortDesc _ hp l
  obtain ⟨t, ht⟩ : ∃ t, sortDesc l = x :: t := by
    cases hs : sortDesc l with
    | nil => rw [hs] at h; exact absurd h (by simp)
    | cons a t => rw [hs] at h; simp at h; exact ⟨t, by rw [h]⟩
  rw [← head?_filter, ← hfilters, ht, List.filter_cons]
  simp

theorem maxFrom_cons (s : FuzzyMatchScore) (l : List FuzzyMatchScore) (b : ℚ) :
    maxFrom (s :: l) b = maxFrom l (max b s.combined_score) := rfl

theorem le_maxFrom_base : ∀ (l : List FuzzyMatchScore) (b : ℚ), b ≤ maxFrom l b
  | [], _ => le_refl _
  | s :: l, b =>
    le_trans (le_max_left b s.combined_score) (le_maxFrom_base l (max b s.combined_score))

theorem le_maxFrom_of_mem :
    ∀ (l : List FuzzyMatchScore) (b : ℚ) (s : FuzzyMatchScore), s ∈ l →
      s.combined_score ≤ maxFrom l b
  | [], _, _, h => absurd h (List.not_mem_nil _)
  | t :: l, b, s, h => by
    rcases List.mem_cons.mp h with h' | h'
    · subst h'
      exact le_trans (le_max_right b s.combined_score) (le_maxFrom_base l _)
    · exact le_maxFrom_of_mem l _ s h'

theorem maxFrom_le : ∀ (l : List FuzzyMatchScore) (b c : ℚ),
    b ≤ c → (∀ s ∈ l, s.combined_score ≤ c) → maxFrom l b ≤ c
  | [], _, _, hb, _ => hb
  | s :: l, b, c, hb, h => by
    rw [maxFrom_cons]
    exact maxFrom_le l _ c (max_le hb (h s (List.mem_cons_self s l)))
      fun t ht => h t (List.mem_cons_of_mem s ht)

/-- The first component of the loop is the running maximum. -/
theorem bestLoop_fst : ∀ (l : List FuzzyMatchScore) (b : ℚ)
    (m : Option SpotifyTrackResult), (bestLoop l b m).1 = maxFrom l b
  | [], _, _ => rfl
  | s :: l, b, m => by
    rw [bestLoop, maxFrom_cons]
    split
    · rename_i h
      rw [bestLoop_fst l _ _, max_eq_right (le_of_lt h)]
    · rename_i h
      rw [bestLoop_fst l _ _, max_eq_left (not_lt.mp h)]

/-- The second component of the loop: unchanged when nothing beats the seed,
else the track of the first element attaining the overall maximum. -/
theorem bestLoop_snd : ∀ (l : List FuzzyMatchScore) (b : ℚ)
    (m : Option SpotifyTrackResult),
    (bestLoop l b m).2 =
      if maxFrom l b ≤ b then m
      else (l.find? (fun s => maxFrom l b ≤ s.combined_score)).map (·.track)
  | [], _, _ => by simp [bestLoop, maxFrom]
  | s :: l, b, m => by
    rw [bestLoop]
    split
    · rename_i hlt
      have hM : maxFrom (s :: l) b = maxFrom l s.combined_score := by
        rw [maxFrom_cons, max_eq_right (le_of_lt hlt)]
      have hMb : ¬ maxFrom (s :: l) b ≤ b :=
        not_le.mpr (lt_of_lt_of_le hlt (hM ▸ le_maxFrom_base l s.combined_score))
      rw [bestLoop_snd l _ _, if_neg hMb, hM, List.find?_cons]
      by_cases hs : maxFrom l s.combined_score ≤ s.combined_score
      · simp [hs]
      · simp [hs]
    · rename_i hge
      have hM : maxFrom (s :: l) b = maxFrom l b := by
        rw [maxFrom_cons, max_eq_left (not_lt.mp hge)]
      rw [bestLoop_snd l _ _, hM, List.find?_cons]
      by_cases hb : maxFrom l b ≤ b
      · simp [hb]
      · have hns : ¬ maxFrom l b ≤ s.combined_score :=
          fun hc => hb (le_trans hc (not_lt.mp hge))
        simp [hb, hns]

/-! ## Lemmas about the per-candidate score -/

theorem scoreCandidate_track (m : SongMetadata) (r : SpotifyTrackResult) :
    (scoreCandidate m r).track = r := by
  rw [scoreCandidate]
  split <;> rfl

theorem scoreCandidate_isrc_match (m : SongMetadata) (r : SpotifyTrackResult) :
    (scoreCandidate m r).isrc_match = isrcTie m r := by
  rw [scoreCandidate]
  split <;> simp_all

theorem scoreCandidate_tie (m : SongMetadata) (r : SpotifyTrackResult)
    (h : isrcTie m r = true) :
    (scoreCandidate m r).combined_score = 1 ∧ (scoreCandidate m r).isrc_match = true := by
  rw [scoreCandidate]
  simp [h]

theorem scoreCandidate_weighted (m : SongMetadata) (r : SpotifyTrackResult)
    (h : isrcTie m r = false) :
    (scoreCandidate m r).combined_score =
      (scoreCandidate m r).title_score * 0.5 + (scoreCandidate m r).artist_score * 0.35 +
        (scoreCandidate m r).album_score * 0.15 ∧
    (scoreCandidate m r).isrc_match = false := by
  rw [scoreCandidate]
  simp [h]

theorem scoreCandidate_title (m : SongMetadata) (r : SpotifyTrackResult) :
    (scoreCandidate m r).title_score = sim m.title r.track_name := by
  rw [scoreCandidate]
  split <;> rfl

theorem scoreCandidate_artist (m : SongMetadata) (r : SpotifyTrackResult) :
    (scoreCandidate m r).artist_score = sim m.artist r.artist_name := by
  rw [scoreCandidate]
  split <;> rfl

theorem scoreCandidate_album (m : SongMetadata) (r : SpotifyTrackResult) :
    (scoreCandidate m r).album_score =
      (if truthy m.album && truthy (some r.album_name) then
        sim (m.album.getD "") r.album_name
      else 0) := by
  rw [scoreCandidate]
  split <;> rfl

theorem albumScore_bounds (m : SongMetadata) (r : SpotifyTrackResult) :
    0 ≤ (scoreCandidate m r).album_score ∧ (scoreCandidate m r).album_score ≤ 1 := by
  rw [scoreCandidate_album]
  split
  · exact ⟨sim_nonneg _ _, sim_le_one _ _⟩
  · norm_num

theorem scoreCandidate_nonneg (m : SongMetadata) (r : SpotifyTrackResult) :
    0 ≤ (scoreCandidate m r).combined_score := by
  cases h : isrcTie m r
  · obtain ⟨hw, -⟩ := scoreCandidate_weighted m r h
    rw [hw, scoreCandidate_title, scoreCandidate_artist]
    nlinarith [sim_nonneg m.title r.track_name, sim_nonneg m.artist r.artist_name,
      (albumScore_bounds m r).1, (albumScore_bounds m r).2]
  · rw [(scoreCandidate_tie m r h).1]
    norm_num

theorem scoreCandidate_le_one (m : SongMetadata) (r : SpotifyTrackResult) :
    (scoreCandidate m r).combined_score ≤ 1 := by
  cases h : isrcTie m r
  · obtain ⟨hw, -⟩ := scoreCandidate_weighted m r h
    rw [hw, scoreCandidate_title, scoreCandidate_artist]
    nlinarith [sim_le_one m.title r.track_name, sim_le_one m.artist r.artist_name,
      sim_nonneg m.title r.track_name, sim_nonneg m.artist r.artist_name,
      (albumScore_bounds m r).1, (albumScore_bounds m r).2]
  · rw [(scoreCandidate_tie m r h).1]

/-! ## Field lemmas for `fuzzyMatch` on a non-empty candidate list -/

theorem fuzzyMatch_all_scores (m : SongMetadata) (results : List SpotifyTrackResult)
    (threshold : ℚ) :
    (fuzzyMatch m results threshold).all_scores =
      sortDesc (results.map (scoreCandidate m)) := by
  rw [fuzzyMatch]
  split
  · rename_i h
    rw [h]
    rfl
  · rfl

theorem fuzzyMatch_confidence (m : SongMetadata) (results : List SpotifyTrackResult)
    (threshold : ℚ) (h : ¬ results = []) :
    (fuzzyMatch m results threshold).confidence =
      maxFrom (results.map (scoreCandidate m)) 0 := by
  rw [fuzzyMatch, if_neg h]
  exact bestLoop_fst _ _ _

theorem fuzzyMatch_is_match (m : SongMetadata) (results : List SpotifyTrackResult)
    (threshold : ℚ) (h : ¬ results = []) :
    (fuzzyMatch m results threshold).is_match =
      decide (threshold ≤ maxFrom (results.map (scoreCandidate m)) 0) := by
  rw [fuzzyMatch, if_neg h]
  simp only [bestLoop_fst]

theorem fuzzyMatch_matched (m : SongMetadata) (results : List SpotifyTrackResult)
    (threshold : ℚ) (h : ¬ results = []) :
    (fuzzyMatch m results threshold).matched_track =
      (if threshold ≤ maxFrom (results.map (scoreCandidate m)) 0 then
        (bestLoop (results.map (scoreCandidate m)) 0 none).2
      else none) := by
  rw [fuzzyMatch, if_neg h]
  simp only [bestLoop_fst, decide_eq_true_eq]

theorem fuzzyMatch_method (m : SongMetadata) (results : List SpotifyTrackResult)
    (threshold : ℚ) (h : ¬ results = []) :
    (fuzzyMatch m results threshold).match_method =
      (if threshold ≤ maxFrom (results.map (scoreCandidate m)) 0 then
        (match (sortDesc (results.map (scoreCandidate m))).head? with
          | some top => if top.isrc_match then "isrc" else "fuzzy"
          | none => "fuzzy")
      else "none") := by
  rw [fuzzyMatch, if_neg h]
  simp only [bestLoop_fst, decide_eq_true_eq]

theorem mem_of_head? {l : List FuzzyMatchScore} {x : FuzzyMatchScore}
    (h : l.head? = some x) : x ∈ l := by
  cases l with
  | nil => exact absurd h (by simp)
  | cons a t =>
    simp only [List.head?_cons, Option.some.injEq] at h
    exact h ▸ List.mem_cons_self a t

theorem mem_all_scores {m : SongMetadata} {results : List SpotifyTrackResult}
    {threshold : ℚ} {s : FuzzyMatchScore} :
    s ∈ (fuzzyMatch m results threshold).all_scores ↔
      s ∈ results.map (scoreCandidate m) := by
  rw [fuzzyMatch_all_scores]
  exact (sortDesc_perm _).mem_iff

theorem results_ne_nil_of_head {m : SongMetadata} {results : List SpotifyTrackResult}
    {threshold : ℚ} {top : FuzzyMatchScore}
    (htop : (fuzzyMatch m results threshold).all_scores.head? = some top) :
    ¬ results = [] := by
  rintro rfl
  rw [fuzzyMatch] at htop
  simp at htop

/-- The head of the score list attains the running maximum the loop computes. -/
theorem top_score_eq_maxFrom {m : SongMetadata} {results : List SpotifyTrackResult}
    {threshold : ℚ} {top : FuzzyMatchScore}
    (htop : (fuzzyMatch m results threshold).all_scores.head? = some top) :
    maxFrom (results.map (scoreCandidate m)) 0 = top.combined_score := by
  have hall := fuzzyMatch_all_scores m results threshold
  rw [hall] at htop
  have htopmem : top ∈ results.map (scoreCandidate m) :=
    (sortDesc_perm _).subset (mem_of_head? htop)
  have h0 : 0 ≤ top.combined_score := by
    obtain ⟨r, -, rfl⟩ := List.mem_map.mp htopmem
    exact scoreCandidate_nonneg m r
  exact le_antisymm (maxFrom_le _ _ _ h0 (sortDesc_head_max htop))
    (le_maxFrom_of_mem _ _ _ htopmem)

/-! ## Claim theorems for the scorer -/

/-- **C2**: without an external-identifier tie (either ISRC absent — `None` or
empty, by Python truthiness — or both present but unequal), the combined score
is exactly the weighted formula `0.5·title + 0.35·artist + 0.15·album` and
`externalIdMatch` is false; in particular an ISRC mismatch does not penalize
the score below the weighted formula. -/
theorem fuzzyMatch_weighted_no_tie (m : SongMetadata)
    (results : List SpotifyTrackResult) (threshold : ℚ) :
    ∀ s ∈ (fuzzyMatch m results threshold).all_scores,
      isrcTie m s.track = false →
        s.combined_score =
          s.title_score * 0.5 + s.artist_score * 0.35 + s.album_score * 0.15 ∧
        s.isrc_match = false := by
  intro s hs htie
  obtain ⟨r, -, rfl⟩ := List.mem_map.mp (mem_all_scores.mp hs)
  rw [scoreCandidate_track] at htie
  exact scoreCandidate_weighted m r htie

/-- **C4**: the returned score list is a permutation of the per-candidate
scores, sorted by non-increasing `combined_score`, and candidates of any fixed
score appear exactly in their original input order (stability, expressed by
filter invariance). -/
theorem fuzzyMatch_sort_invariant (m : SongMetadata)
    (results : List SpotifyTrackResult) (threshold : ℚ) :
    (fuzzyMatch m results threshold).all_scores.Sorted scoreGE ∧
    ((fuzzyMatch m results threshold).all_scores).Perm
      (results.map (scoreCandidate m)) ∧
    ∀ q : ℚ,
      (fuzzyMatch m results threshold).all_scores.filter
          (fun s => s.combined_score == q) =
        (results.map (scoreCandidate m)).filter (fun s => s.combined_score == q) := by
  rw [fuzzyMatch_all_scores]
  refine ⟨sortDesc_sorted _, sortDesc_perm _, fun q => ?_⟩
  apply filter_sortDesc
  intro a b ha hb
  simp only [beq_iff_eq] at ha hb
  rw [ha, hb]

/-- **C1 (amended)**: an ISRC-tied candidate always scores `combinedScore = 1`
with `externalIdMatch = true`, whatever its text fields; if such a candidate
exists the decision has `isMatch = true` and `confidence = 1` (for any
threshold ≤ 1); and the decision's method is `exact_id` (`"isrc"`) provided
the top-ranked candidate after the stable sort is the ISRC-tied one — an
earlier candidate with a perfect 1.0 text score takes the top instead and
yields method `similarity` (`"fuzzy"`). -/
theorem fuzzyMatch_exact_id (m : SongMetadata) (results : List SpotifyTrackResult)
    (threshold : ℚ) (hth : threshold ≤ 1) :
    (∀ s ∈ (fuzzyMatch m results threshold).all_scores,
        isrcTie m s.track = true → s.combined_score = 1 ∧ s.isrc_match = true) ∧
    ((∃ r ∈ results, isrcTie m r = true) →
        (fuzzyMatch m results threshold).is_match = true ∧
        (fuzzyMatch m results threshold).confidence = 1) ∧
    (∀ top, (fuzzyMatch m results threshold).all_scores.head? = some top →
        top.isrc_match = true →
          (fuzzyMatch m results threshold).is_match = true ∧
          (fuzzyMatch m results threshold).match_method = "isrc") := by
  refine ⟨?_, ?_, ?_⟩
  · intro s hs htie
    obtain ⟨r, -, rfl⟩ := List.mem_map.mp (mem_all_scores.mp hs)
    rw [scoreCandidate_track] at htie
    exact scoreCandidate_tie m r htie
  · rintro ⟨r, hr, htie⟩
    have hne : ¬ results = [] := by
      rintro rfl
      exact absurd hr (List.not_mem_nil r)
    have hmem : scoreCandidate m r ∈ results.map (scoreCandidate m) :=
      List.mem_map_of_mem _ hr
    have hub : maxFrom (results.map (scoreCandidate m)) 0 ≤ 1 := by
      refine maxFrom_le _ _ _ (by norm_num) fun s hs => ?_
      obtain ⟨r', -, rfl⟩ := List.mem_map.mp hs
      exact scoreCandidate_le_one m r'
    have hlb : (1 : ℚ) ≤ maxFrom (results.map (scoreCandidate m)) 0 :=
      (scoreCandidate_tie m r htie).1 ▸ le_maxFrom_of_mem _ _ _ hmem
    have hM : maxFrom (results.map (scoreCandidate m)) 0 = 1 := le_antisymm hub hlb
    constructor
    · rw [fuzzyMatch_is_match _ _ _ hne, hM]
      simp [hth]
    · rw [fuzzyMatch_confidence _ _ _ hne, hM]
  · intro top htop hisrc
    have hne := results_ne_nil_of_head htop
    have hM := top_score_eq_maxFrom htop
    have h1 : top.combined_score = 1 := by
      have htopmem : top ∈ results.map (scoreCandidate m) := by
        rw [fuzzyMatch_all_scores] at htop
        exact (sortDesc_perm _).subset (mem_of_head? htop)
      obtain ⟨r, -, rfl⟩ := List.mem_map.mp htopmem
      rw [scoreCandidate_isrc_match] at hisrc
      exact (scoreCandidate_tie m r hisrc).1
    have htop' : (sortDesc (results.map (scoreCandidate m))).head? = some top := by
      rw [fuzzyMatch_all_scores] at htop
      exact htop
    constructor
    · rw [fuzzyMatch_is_match _ _ _ hne, hM, h1]
      simp [hth]
    · rw [fuzzyMatch_method _ _ _ hne, hM, h1, htop', if_pos hth]
      simp [hisrc]

/-- **C3 (amended)**: with `top` the head of the sorted score list,
`isMatch ↔ top.combinedScore ≥ threshold` (the maximum); the method is `none`
below threshold, else `exact_id` (`"isrc"`) exactly when `top.externalIdMatch`,
else `similarity` (`"fuzzy"`); `matched` is the top candidate when `isMatch`
holds and the threshold is positive, and `null` when `isMatch` fails.  (At
`threshold = 0` with every score zero the source's strict-improvement loop
leaves `matched = None` although `isMatch` is true.) -/
theorem fuzzyMatch_decision (m : SongMetadata) (results : List SpotifyTrackResult)
    (threshold : ℚ) (top : FuzzyMatchScore)
    (htop : (fuzzyMatch m results threshold).all_scores.head? = some top) :
    (∀ s ∈ (fuzzyMatch m results threshold).all_scores,
        s.combined_score ≤ top.combined_score) ∧
    ((fuzzyMatch m results threshold).is_match = true ↔
        threshold ≤ top.combined_score) ∧
    ((fuzzyMatch m results threshold).match_method =
      if threshold ≤ top.combined_score then
        (if top.isrc_match then "isrc" else "fuzzy")
      else "none") ∧
    (threshold ≤ top.combined_score → 0 < threshold →
        (fuzzyMatch m results threshold).matched_track = some top.track) ∧
    (¬ threshold ≤ top.combined_score →
        (fuzzyMatch m results threshold).matched_track = none) := by
  have hne := results_ne_nil_of_head htop
  have hM := top_score_eq_maxFrom htop
  have htop' : (sortDesc (results.map (scoreCandidate m))).head? = some top := by
    rw [fuzzyMatch_all_scores] at htop
    exact htop
  refine ⟨?_, ?_, ?_, ?_, ?_⟩
  · intro s hs
    exact sortDesc_head_max htop' s (mem_all_scores.mp hs)
  · rw [fuzzyMatch_is_match _ _ _ hne, hM]
    simp
  · rw [fuzzyMatch_method _ _ _ hne, hM, htop']
  · intro hth hpos
    rw [fuzzyMatch_matched _ _ _ hne, hM, if_pos hth, bestLoop_snd]
    have hM0 : ¬ maxFrom (results.map (scoreCandidate m)) 0 ≤ 0 := by
      rw [hM]
      exact not_le.mpr (lt_of_lt_of_le hpos hth)
    rw [if_neg hM0]
    have hcongr :
        (results.map (scoreCandidate m)).find?
            (fun s => decide (maxFrom (results.map (scoreCandidate m)) 0 ≤
              s.combined_score)) =
          (results.map (scoreCandidate m)).find?
            (fun s => s.combined_score == top.combined_score) := by
      apply find?_congr
      intro a ha
      have hle := sortDesc_head_max htop' a ha
      rw [hM]
      by_cases hc : a.combined_score = top.combined_score
      · simp [hc]
      · have hnc : ¬ top.combined_score ≤ a.combined_score :=
          fun hcc => hc (le_antisymm hle hcc)
        simp [hc, hnc]
    rw [hcongr, sortDesc_head_find htop']
    rfl
  · intro hth
    rw [fuzzyMatch_matched _ _ _ hne, hM, if_neg hth]

/-! ## Claim theorems for the disambiguation boundary, playlist step, query,
retry combinator and orchestrator -/

/-- **C6 (amended)**: with a non-empty candidate list, a selector naming no
supplied candidate resolves in BOTH cited implementations to `is_match =
false` with the failure marker method (`"ai_failed"`, the spec's `none`) and
the invalid-URI detail as reasoning, without raising.  The remaining error
handling diverges between the two cited implementations: the Temporal
activity (`_ai_disambiguate_with_langchain`) also converts a missing
`URI:`/`REASON:` line to that same non-raising shape with the parse-error
detail, and re-raises backend-call failures classified — non-retryably
exactly for authentication failures, retryably otherwise — while the
deprecated standalone variant (`_ai_disambiguate_claude`) raises the
`ValueError` for a missing line uncaught and propagates backend-call
failures raw and unclassified. -/
theorem aiDisambiguate_parse_safety (candidates : List SpotifyTrackResult)
    (backend : Except String String) (hc : ¬ candidates = []) :
    (∀ content, backend = .ok content →
      aiDisambiguate candidates backend = .ok (parseAIResponse candidates content) ∧
      ((uriLine content = none ∨ reasonLine content = none) →
        parseAIResponse candidates content =
          { is_match := false, confidence := 0, matched_track := none,
            match_method := "ai_failed",
            reasoning :=
              "Failed to parse AI response: AI response missing URI or REASON" }) ∧
      (∀ uri, selectedUri content = some uri → ¬ pyUpper uri = "NONE" →
        candidates.find? (fun c => c.spotify_uri == uri) = none →
          (parseAIResponse candidates content).is_match = false ∧
          (parseAIResponse candidates content).match_method = "ai_failed" ∧
          (parseAIResponse candidates content).reasoning =
            "AI returned invalid URI: " ++ uri)) ∧
    (∀ e, backend = .error e →
      ∃ err, aiDisambiguate candidates backend = .error err ∧
        err.non_retryable = isAuthError e ∧
        (isAuthError e = true → err.type = "InvalidAPIKeyError") ∧
        (isAuthError e = false → err.type = "AIDisambiguationError")) ∧
    (∀ content, backend = .ok content →
      aiDisambiguateClaude candidates backend =
        parseClaudeResponse candidates content ∧
      ((uriLine content = none ∨ reasonLine content = none) →
        parseClaudeResponse candidates content =
          .error "ValueError: Claude response missing URI or REASON") ∧
      (∀ uri, selectedUri content = some uri → ¬ pyUpper uri = "NONE" →
        candidates.find? (fun c => c.spotify_uri == uri) = none →
          parseClaudeResponse candidates content =
            .ok { is_match := false, confidence := 0, matched_track := none,
                  match_method := "ai_failed",
                  reasoning := "Claude returned invalid URI: " ++ uri })) ∧
    (∀ e, backend = .error e →
      aiDisambiguateClaude candidates backend = .error e) := by
  refine ⟨?_, ?_, ?_, ?_⟩
  · rintro content rfl
    refine ⟨by rw [aiDisambiguate, if_neg hc], ?_, ?_⟩
    · intro hmiss
      rw [parseAIResponse]
      cases hu : uriLine content with
      | none => cases hr : reasonLine content <;> rfl
      | some u =>
        cases hr : reasonLine content with
        | none => rfl
        | some rl =>
          rcases hmiss with h | h
          · rw [hu] at h
            exact absurd h (by simp)
          · rw [hr] at h
            exact absurd h (by simp)
    · intro uri hsel hnone hfind
      rw [parseAIResponse]
      cases hu : uriLine content with
      | none =>
        rw [selectedUri, hu] at hsel
        exact absurd hsel (by simp)
      | some u =>
        cases hr : reasonLine content with
        | none =>
          rw [selectedUri, hu, hr] at hsel
          exact absurd hsel (by simp)
        | some rl =>
          rw [selectedUri, hu, hr] at hsel
          simp only [Option.some.injEq] at hsel
          subst hsel
          simp [hnone, hfind]
  · rintro e rfl
    rw [aiDisambiguate, if_neg hc]
    cases ha : isAuthError e
    · refine ⟨⟨"AI disambiguation error: " ++ e, false, "AIDisambiguationError"⟩,
        by simp, rfl, ?_, fun _ => rfl⟩
      intro h
      exact absurd h (by simp)
    · refine ⟨⟨"Invalid OpenAI API key: " ++ e, true, "InvalidAPIKeyError"⟩,
        by simp, rfl, fun _ => rfl, ?_⟩
      intro h
      exact absurd h (by simp)
  · rintro content rfl
    refine ⟨rfl, ?_, ?_⟩
    · intro hmiss
      rw [parseClaudeResponse]
      cases hu : uriLine content with
      | none => cases hr : reasonLine content <;> rfl
      | some u =>
        cases hr : reasonLine content with
        | none => rfl
        | some rl =>
          rcases hmiss with h | h
          · rw [hu] at h
            exact absurd h (by simp)
          · rw [hr] at h
            exact absurd h (by simp)
    · intro uri hsel hnone hfind
      rw [parseClaudeResponse]
      cases hu : uriLine content with
      | none =>
        rw [selectedUri, hu] at hsel
        exact absurd hsel (by simp)
      | some u =>
        cases hr : reasonLine content with
        | none =>
          rw [selectedUri, hu, hr] at hsel
          exact absurd hsel (by simp)
        | some rl =>
          rw [selectedUri, hu, hr] at hsel
          simp only [Option.some.injEq] at hsel
          subst hsel
          simp [hnone, hfind]
  · rintro e rfl
    rfl

/-- **C7**: the insert step checks `Exists` first and skips `Insert` when the
entry is present; starting from a state without the entry, running the step
twice leaves exactly one membership entry, the second run reporting
`already_exists` and changing nothing. -/
theorem addTrack_idempotent (st : PlaylistState) (track_uri playlist_id : String)
    (h : entryCount st track_uri playlist_id = 0) :
    (∀ st' : PlaylistState, existsInPlaylist st' track_uri playlist_id = true →
      addTrackToPlaylist st' track_uri playlist_id = ("already_exists", st')) ∧
    (addTrackToPlaylist st track_uri playlist_id).1 = "added" ∧
    entryCount (addTrackToPlaylist st track_uri playlist_id).2
      track_uri playlist_id = 1 ∧
    (addTrackToPlaylist (addTrackToPlaylist st track_uri playlist_id).2
      track_uri playlist_id).1 = "already_exists" ∧
    (addTrackToPlaylist (addTrackToPlaylist st track_uri playlist_id).2
      track_uri playlist_id).2 = (addTrackToPlaylist st track_uri playlist_id).2 ∧
    entryCount (addTrackToPlaylist (addTrackToPlaylist st track_uri playlist_id).2
      track_uri playlist_id).2 track_uri playlist_id = 1 := by
  have hnotmem : (playlist_id, track_uri) ∉ st := by
    rw [entryCount] at h
    exact List.count_eq_zero.mp h
  have hex : existsInPlaylist st track_uri playlist_id = false := by
    rw [existsInPlaylist]
    simpa using hnotmem
  have hfirst : addTrackToPlaylist st track_uri playlist_id =
      ("added", insertEntry st track_uri playlist_id) := by
    rw [addTrackToPlaylist, hex]
    simp
  have hcount1 : entryCount (insertEntry st track_uri playlist_id)
      track_uri playlist_id = 1 := by
    rw [entryCount] at h
    rw [entryCount, insertEntry, List.count_append, h]
    simp
  have hex1 : existsInPlaylist (insertEntry st track_uri playlist_id)
      track_uri playlist_id = true := by
    rw [existsInPlaylist, insertEntry]
    simp
  have hskip : ∀ st' : PlaylistState,
      existsInPlaylist st' track_uri playlist_id = true →
      addTrackToPlaylist st' track_uri playlist_id = ("already_exists", st') := by
    intro st' hst'
    rw [addTrackToPlaylist, hst']
    simp
  refine ⟨hskip, ?_, ?_, ?_, ?_, ?_⟩ <;>
    rw [hfirst] <;>
    simp [hcount1, hskip _ hex1]

/-- **C8 (amended)**: the catalog query concatenates the structured filters
`track:` (holding the source title), `artist:`, and — when the source album is
present and non-empty — `album:`. -/
theorem to_search_query_filters (m : SongMetadata) :
    (truthy m.album = false →
      m.to_search_query = "track:" ++ m.title ++ " artist:" ++ m.artist) ∧
    (∀ alb, m.album = some alb → ¬ alb = "" →
      m.to_search_query =
        "track:" ++ m.title ++ " artist:" ++ m.artist ++ " album:" ++ alb) := by
  constructor
  · intro h
    rw [SongMetadata.to_search_query]
    simp [h]
  · intro alb halb hne
    have ht : truthy (some alb) = true := by
      rw [truthy]
      simpa using hne
    rw [SongMetadata.to_search_query, halb]
    simp [ht]

/-- The loop of `execute_with_retry` never makes more invocations than it has
attempts left. -/
theorem retryLoop_attempts_le {α : Type} (outcomes : Nat → Except String α)
    (backoff : ℚ) :
    ∀ (remaining i : Nat) (delay : ℚ),
      (retryLoop outcomes backoff i remaining delay).attempts ≤ remaining
  | 0, _, _ => le_refl _
  | 1, _, _ => le_refl _
  | remaining + 2, i, delay => by
    rw [retryLoop]
    cases outcomes i with
    | ok v => exact Nat.le_add_left 1 _
    | error e =>
      have := retryLoop_attempts_le outcomes backoff (remaining + 1) (i + 1)
        (delay * backoff)
      simpa using Nat.succ_le_succ this

theorem geom_cons (delay backoff : ℚ) (k : Nat) :
    delay :: (List.range k).map (fun t => delay * backoff * backoff ^ t) =
      (List.range (k + 1)).map (fun t => delay * backoff ^ t) := by
  rw [List.range_succ_eq_map, List.map_cons, List.map_map]
  congr 1
  · simp
  · apply List.map_congr_left
    intro t _
    simp only [Function.comp_apply]
    rw [pow_succ]
    ring

/-- If the first `k` invocations raise and the `k`-th-indexed one succeeds
inside the budget, the loop returns that success after exactly `k + 1`
invocations, sleeping the geometric prefix. -/
theorem retryLoop_success {α : Type} (outcomes : Nat → Except String α)
    (backoff : ℚ) :
    ∀ (remaining k i : Nat) (delay : ℚ) (v : α),
      k < remaining →
      (∀ j, j < k → ∃ e, outcomes (i + j) = .error e) →
      outcomes (i + k) = .ok v →
      retryLoop outcomes backoff i remaining delay =
        { result := .ok v, attempts := k + 1,
          sleeps := (List.range k).map (fun t => delay * backoff ^ t) }
  | 0, k, _, _, _, hk, _, _ => absurd hk (Nat.not_lt_zero k)
  | 1, k, i, delay, v, hk, _, hok => by
    have hk0 : k = 0 := Nat.lt_one_iff.mp hk
    subst hk0
    rw [retryLoop]
    simp only [Nat.add_zero] at hok
    rw [hok]
    simp
  | remaining + 2, k, i, delay, v, hk, herr, hok => by
    cases k with
    | zero =>
      rw [retryLoop]
      simp only [Nat.add_zero] at hok
      rw [hok]
      simp
    | succ k' =>
      obtain ⟨e, he⟩ := herr 0 (Nat.succ_pos k')
      rw [Nat.add_zero] at he
      have hrec := retryLoop_success outcomes backoff (remaining + 1) k' (i + 1)
        (delay * backoff) v (Nat.lt_of_succ_lt_succ hk)
        (fun j hj => by
          have := herr (j + 1) (Nat.succ_lt_succ hj)
          rwa [show i + (j + 1) = i + 1 + j by omega] at this)
        (by rwa [show i + 1 + k' = i + (k' + 1) by omega])
      rw [retryLoop, he, hrec]
      simp [geom_cons]

/-- If every invocation in the budget raises, the loop makes exactly
`remaining` invocations, sleeps the geometric prefix between them, and
re-raises the LAST invocation's exception. -/
theorem retryLoop_allfail {α : Type} (outcomes : Nat → Except String α)
    (backoff : ℚ) :
    ∀ (remaining i : Nat) (delay : ℚ),
      1 ≤ remaining →
      (∀ j, j < remaining → ∃ e, outcomes (i + j) = .error e) →
      retryLoop outcomes backoff i remaining delay =
        { result := outcomes (i + (remaining - 1)), attempts := remaining,
          sleeps := (List.range (remaining - 1)).map (fun t => delay * backoff ^ t) }
  | 0, _, _, h1, _ => absurd h1 (by omega)
  | 1, i, delay, _, _ => by
    rw [retryLoop]
    simp
  | remaining + 2, i, delay, _, herr => by
    obtain ⟨e, he⟩ := herr 0 (by omega)
    rw [Nat.add_zero] at he
    have hrec := retryLoop_allfail outcomes backoff (remaining + 1) (i + 1)
      (delay * backoff) (by omega)
      (fun j hj => by
        have := herr (j + 1) (by omega)
        rwa [show i + (j + 1) = i + 1 + j by omega] at this)
    rw [retryLoop, he, hrec]
    have hidx : i + 1 + (remaining + 1 - 1) = i + (remaining + 2 - 1) := by omega
    simp only [hidx]
    have hrange : remaining + 1 - 1 = remaining := by omega
    rw [hrange]
    have hrange2 : remaining + 2 - 1 = remaining + 1 := by omega
    rw [hrange2]
    simp [geom_cons]

/-- **C10**: with `max_attempts ≥ 1`, `execute_with_retry` invokes the
function at most `max_attempts` times; the first normal return is returned
after exactly that invocation; if every invocation raises, the loop re-raises
the exception of the last (`max_attempts`-th) invocation; and the sleeps
between consecutive invocations follow the geometric schedule
`initial_delay · backoff^t`. -/
theorem executeWithRetry_contract {α : Type} (outcomes : Nat → Except String α)
    (max_attempts : Nat) (initial_delay backoff : ℚ) (h : 1 ≤ max_attempts) :
    (executeWithRetry outcomes max_attempts initial_delay backoff).attempts ≤
      max_attempts ∧
    (∀ k v, k < max_attempts → (∀ j, j < k → ∃ e, outcomes j = .error e) →
      outcomes k = .ok v →
        executeWithRetry outcomes max_attempts initial_delay backoff =
          { result := .ok v, attempts := k + 1,
            sleeps := geomDelays initial_delay backoff k }) ∧
    ((∀ j, j < max_attempts → ∃ e, outcomes j = .error e) →
      executeWithRetry outcomes max_attempts initial_delay backoff =
        { result := outcomes (max_attempts - 1), attempts := max_attempts,
          sleeps := geomDelays initial_delay backoff (max_attempts - 1) }) := by
  refine ⟨retryLoop_attempts_le outcomes backoff max_attempts 0 initial_delay,
    ?_, ?_⟩
  · intro k v hk herr hok
    rw [executeWithRetry, geomDelays]
    exact retryLoop_success outcomes backoff max_attempts k 0 initial_delay v hk
      (fun j hj => by simpa using herr j hj) (by simpa using hok)
  · intro herr
    rw [executeWithRetry, geomDelays]
    have := retryLoop_allfail outcomes backoff max_attempts 0 initial_delay h
      (fun j hj => by simpa using herr j hj)
    simpa using this

/-! ### Terminal-state lemmas for the orchestrator -/

theorem data_append (a b : String) : (a ++ b).data = a.data ++ b.data := rfl

theorem append_ne_empty (p s : String) (hp : ¬ p = "") : ¬ (p ++ s) = "" := by
  intro h
  apply hp
  have hd := congrArg String.data h
  rw [data_append] at hd
  have : p.data = [] := List.append_eq_nil.mp hd |>.1
  cases p
  simp_all

theorem failedRun_terminal (e : String) (a : Option (List SpotifyTrackResult)) :
    (failedRun e a).status = "failed" ∧
    (failedRun e a).error = some e ∧
    (failedRun e a).result.success = false ∧
    (failedRun e a).result.message = "Workflow failed: " ++ e := by
  exact ⟨rfl, rfl, rfl, rfl⟩

theorem finishRun_terminal (input : WorkflowInput) (b : Behavior) (dec : Decision)
    (a : Option (List SpotifyTrackResult)) :
    ((finishRun input b dec a).status = "completed" ∨
      (finishRun input b dec a).status = "failed") ∧
    ((finishRun input b dec a).status = "failed" →
      ∃ e, (finishRun input b dec a).error = some e ∧
        (finishRun input b dec a).result.success = false ∧
        (finishRun input b dec a).result.message = "Workflow failed: " ++ e) ∧
    ¬ (finishRun input b dec a).result.message = "" := by
  rw [finishRun]
  split
  · refine ⟨Or.inl rfl, fun hf => absurd hf (by simp), ?_⟩
    repeat' apply append_ne_empty
    decide
  · split
    · refine ⟨Or.inr rfl,
        fun _ =>
          ⟨"AttributeError: 'NoneType' object has no attribute 'spotify_uri'",
            rfl, rfl, rfl⟩, ?_⟩
      apply append_ne_empty
      decide
    · cases b.add with
      | error e =>
        refine ⟨Or.inr rfl, fun _ => ⟨e, rfl, rfl, rfl⟩, ?_⟩
        apply append_ne_empty
        decide
      | ok s =>
        refine ⟨Or.inl rfl, fun hf => absurd hf (by simp), ?_⟩
        repeat' apply append_ne_empty
        decide

theorem finishRun_aiCalledWith (input : WorkflowInput) (b : Behavior)
    (dec : Decision) (a : Option (List SpotifyTrackResult)) :
    (finishRun input b dec a).aiCalledWith = a := by
  rw [finishRun]
  split
  · rfl
  · split
    · rfl
    · split <;> rfl

/-- Terminal-state contract of the tail `afterMatch`. -/
theorem afterMatch_terminal (input : WorkflowInput) (b : Behavior)
    (search_results : List SpotifyTrackResult) (mr : MatchOutcome) :
    ((afterMatch input b search_results mr).status = "completed" ∨
      (afterMatch input b search_results mr).status = "failed") ∧
    ((afterMatch input b search_results mr).status = "failed" →
      ∃ e, (afterMatch input b search_results mr).error = some e ∧
        (afterMatch input b search_results mr).result.success = false ∧
        (afterMatch input b search_results mr).result.message =
          "Workflow failed: " ++ e) ∧
    ¬ (afterMatch input b search_results mr).result.message = "" := by
  rw [afterMatch]
  split
  · cases b.ai with
    | error e =>
      refine ⟨Or.inr rfl, fun _ => ⟨e, rfl, rfl, rfl⟩, ?_⟩
      apply append_ne_empty
      decide
    | ok aiR => exact finishRun_terminal input b _ _
  · exact finishRun_terminal input b _ _

theorem runStandalone_search_error (input : WorkflowInput) (b : Behavior)
    (e : String) (h : b.search = .error e) :
    runStandalone input b = failedRun e none := by
  rw [runStandalone, h]

theorem runStandalone_search_nil (input : WorkflowInput) (b : Behavior)
    (h : b.search = .ok []) :
    runStandalone input b =
      ⟨"completed",
        ⟨false, "No tracks found on Spotify for '" ++
          input.song_metadata.title ++ "'", none, none, 0, none⟩,
        none, none⟩ := by
  rw [runStandalone, h]
  rfl

theorem runStandalone_search_ok (input : WorkflowInput) (b : Behavior)
    (results : List SpotifyTrackResult) (h : b.search = .ok results)
    (hnil : ¬ results = []) :
    runStandalone input b =
      afterMatch input b results
        (fuzzyMatch input.song_metadata results input.match_threshold) := by
  rw [runStandalone, h]
  exact if_neg hnil

/-- **C9**: whatever the collaborators do — each step's retry envelope
returning a value or re-raising — the orchestrator never raises: every run
ends with status `completed` or `failed`, its result carries a success flag
and a non-empty message, and a `failed` run records the causing error in
both `state.error` and the result message. -/
theorem runStandalone_terminal (input : WorkflowInput) (b : Behavior) :
    ((runStandalone input b).status = "completed" ∨
      (runStandalone input b).status = "failed") ∧
    ((runStandalone input b).status = "failed" →
      ∃ e, (runStandalone input b).error = some e ∧
        (runStandalone input b).result.success = false ∧
        (runStandalone input b).result.message = "Workflow failed: " ++ e) ∧
    ¬ (runStandalone input b).result.message = "" := by
  cases hsearch : b.search with
  | error e =>
    rw [runStandalone_search_error input b e hsearch]
    refine ⟨Or.inr rfl, fun _ => ⟨e, rfl, rfl, rfl⟩, ?_⟩
    apply append_ne_empty
    decide
  | ok search_results =>
    by_cases hnil : search_results = []
    · subst hnil
      rw [runStandalone_search_nil input b hsearch]
      refine ⟨Or.inl rfl, fun hf => absurd hf (by simp), ?_⟩
      repeat' apply append_ne_empty
      decide
    · rw [runStandalone_search_ok input b search_results hsearch hnil]
      exact afterMatch_terminal input b _ _

/-- The candidate list `afterMatch` hands to the AI step. -/
theorem afterMatch_aiCalledWith (input : WorkflowInput) (b : Behavior)
    (search_results : List SpotifyTrackResult) (mr : MatchOutcome) :
    ((afterMatch input b search_results mr).aiCalledWith ≠ none ↔
      (mr.is_match = false ∧ input.use_ai_disambiguation = true)) ∧
    ((afterMatch input b search_results mr).aiCalledWith = none ∨
      (afterMatch input b search_results mr).aiCalledWith =
        some (search_results.take 5)) := by
  rw [afterMatch]
  split
  · rename_i hcond
    cases b.ai with
    | error e =>
      refine ⟨?_, Or.inr rfl⟩
      simp only [failedRun]
      simp [hcond.1, hcond.2]
    | ok aiR =>
      rw [finishRun_aiCalledWith]
      refine ⟨?_, Or.inr rfl⟩
      simp [hcond.1, hcond.2]
  · rename_i hcond
    rw [finishRun_aiCalledWith]
    refine ⟨?_, Or.inl rfl⟩
    simpa using hcond

/-- **C5 (amended)**: the AI-disambiguation step runs exactly when the
deterministic decision's `isMatch` is false and the request allows it, and it
is invoked with the FIRST five search results in their original input order
(`search_results[:5]`), not with the top five by combined score. -/
theorem runStandalone_disambiguation (input : WorkflowInput) (b : Behavior)
    (results : List SpotifyTrackResult) (hok : b.search = .ok results) :
    ((runStandalone input b).aiCalledWith ≠ none ↔
      (¬ results = [] ∧
        (fuzzyMatch input.song_metadata results input.match_threshold).is_match =
          false ∧
        input.use_ai_disambiguation = true)) ∧
    ((runStandalone input b).aiCalledWith = none ∨
      (runStandalone input b).aiCalledWith = some (results.take 5)) := by
  by_cases hnil : results = []
  · subst hnil
    rw [runStandalone_search_nil input b hok]
    simp
  · rw [runStandalone_search_ok input b results hok hnil]
    have h := afterMatch_aiCalledWith input b results
      (fuzzyMatch input.song_metadata results input.match_threshold)
    refine ⟨?_, h.2⟩
    rw [h.1]
    constructor
    · intro hc
      exact ⟨hnil, hc.1, hc.2⟩
    · intro hc
      exact ⟨hc.2.1, hc.2.2⟩

/-! ## Concrete-evaluation lemmas -/

theorem sim_eq_zero (x y : String)
    (hn : lcs (pyLower x).data (pyLower y).data = 0)
    (h0 : ¬ (pyLower x).data.length + (pyLower y).data.length = 0) :
    sim x y = 0 := by
  rw [sim, fuzzRatio01, if_neg h0, hn]
  norm_num

/-- `scoreCandidate` on the dissimilar pair: every component zero. -/
theorem scoreCandidate_songAB_trackXY :
    scoreCandidate songAB trackXY = ⟨trackXY, 0, 0, 0, 0, false⟩ := by
  have ht : sim "aa" "xy" = 0 := sim_eq_zero _ _ (by decide) (by decide)
  have ha : sim "bb" "zw" = 0 := sim_eq_zero _ _ (by decide) (by decide)
  simp [scoreCandidate, songAB, trackXY, isrcTie, truthy, ht, ha]

/-- `scoreCandidate` on the text-perfect, ISRC-less candidate. -/
theorem scoreCandidate_songFull_trackText :
    scoreCandidate songFull trackText = ⟨trackText, 1, 1, 1, 1, false⟩ := by
  have ht : sim "a" "a" = 1 := sim_self _
  have ha : sim "b" "b" = 1 := sim_self _
  have hc : sim "c" "c" = 1 := sim_self _
  simp [scoreCandidate, songFull, trackText, isrcTie, truthy, ht, ha, hc]
  norm_num

/-- `scoreCandidate` on the ISRC-tied, text-dissimilar candidate. -/
theorem scoreCandidate_songFull_trackIsrc :
    scoreCandidate songFull trackIsrc = ⟨trackIsrc, 1, 0, 0, 0, true⟩ := by
  have ht : sim "a" "x" = 0 := sim_eq_zero _ _ (by decide) (by decide)
  have ha : sim "b" "y" = 0 := sim_eq_zero _ _ (by decide) (by decide)
  have hc : sim "c" "q" = 0 := sim_eq_zero _ _ (by decide) (by decide)
  simp [scoreCandidate, songFull, trackIsrc, isrcTie, truthy, ht, ha, hc]

/-- `scoreCandidate` on a background candidate of the six-candidate run. -/
theorem scoreCandidate_songC5_bg (i : String) :
    scoreCandidate songC5 (bgTrack i) = ⟨bgTrack i, 0, 0, 0, 0, false⟩ := by
  have ht : sim "ab" "xy" = 0 := sim_eq_zero _ _ (by decide) (by decide)
  have ha : sim "cd" "zw" = 0 := sim_eq_zero _ _ (by decide) (by decide)
  simp [scoreCandidate, songC5, bgTrack, isrcTie, truthy, ht, ha]

/-- `scoreCandidate` on the best-scoring sixth candidate: `0.5`. -/
theorem scoreCandidate_songC5_hit :
    scoreCandidate songC5 hitTrack = ⟨hitTrack, 0.5, 1, 0, 0, false⟩ := by
  have ht : sim "ab" "ab" = 1 := sim_self _
  have ha : sim "cd" "zz" = 0 := sim_eq_zero _ _ (by decide) (by decide)
  simp [scoreCandidate, songC5, hitTrack, isrcTie, truthy, ht, ha]

/-! ## Counterexamples -/

/-- **C1 (counterexample)**: with an ISRC-tied candidate present (score 1,
`externalIdMatch` true), the decision's method is nonetheless `"fuzzy"`
(`similarity`), because the earlier text-perfect candidate also scores 1 and
the stable sort keeps it on top.  The claim's "method is exact_id" is false. -/
theorem fuzzyMatch_exact_id_counterexample :
    (fuzzyMatch songFull [trackText, trackIsrc] 0.85).match_method = "fuzzy" ∧
    (fuzzyMatch songFull [trackText, trackIsrc] 0.85).is_match = true ∧
    (∃ s ∈ (fuzzyMatch songFull [trackText, trackIsrc] 0.85).all_scores,
      s.track = trackIsrc ∧ s.isrc_match = true ∧ s.combined_score = 1) ∧
    ¬ ("fuzzy" : String) = "isrc" := by
  have hns : ¬ ([trackText, trackIsrc] : List SpotifyTrackResult) = [] := by simp
  have hmap : [trackText, trackIsrc].map (scoreCandidate songFull) =
      [⟨trackText, 1, 1, 1, 1, false⟩, ⟨trackIsrc, 1, 0, 0, 0, true⟩] := by
    simp [scoreCandidate_songFull_trackText, scoreCandidate_songFull_trackIsrc]
  have hsort :
      sortDesc [⟨trackText, 1, 1, 1, 1, false⟩, ⟨trackIsrc, 1, 0, 0, 0, true⟩] =
        [⟨trackText, 1, 1, 1, 1, false⟩, ⟨trackIsrc, 1, 0, 0, 0, true⟩] := by
    norm_num [sortDesc, insertDesc]
  have hmax : maxFrom [⟨trackText, 1, 1, 1, 1, false⟩,
      (⟨trackIsrc, 1, 0, 0, 0, true⟩ : FuzzyMatchScore)] 0 = 1 := by
    norm_num [maxFrom]
  refine ⟨?_, ?_, ?_, by decide⟩
  · rw [fuzzyMatch_method _ _ _ hns, hmap, hmax, hsort]
    norm_num
  · rw [fuzzyMatch_is_match _ _ _ hns, hmap, hmax]
    simp only [decide_eq_true_eq]
    norm_num
  · rw [fuzzyMatch_all_scores, hmap, hsort]
    exact ⟨⟨trackIsrc, 1, 0, 0, 0, true⟩, by simp, rfl, rfl, rfl⟩

/-- **C3 (counterexample)**: below the threshold the method is `"none"` — not
`similarity` as the claim's unconditional method rule demands (the top
candidate's `externalIdMatch` is false, so the claim predicts `similarity`). -/
theorem fuzzyMatch_decision_counterexample :
    (fuzzyMatch songAB [trackXY] 0.9).match_method = "none" ∧
    (fuzzyMatch songAB [trackXY] 0.9).is_match = false ∧
    ((fuzzyMatch songAB [trackXY] 0.9).all_scores.head?.map
      (fun s => s.isrc_match)) = some false ∧
    ¬ ("none" : String) = "fuzzy" := by
  have hns : ¬ ([trackXY] : List SpotifyTrackResult) = [] := by simp
  have hmap : [trackXY].map (scoreCandidate songAB) =
      [⟨trackXY, 0, 0, 0, 0, false⟩] := by
    simp [scoreCandidate_songAB_trackXY]
  have hmax : maxFrom [(⟨trackXY, 0, 0, 0, 0, false⟩ : FuzzyMatchScore)] 0 = 0 := by
    simp [maxFrom]
  refine ⟨?_, ?_, ?_, by decide⟩
  · rw [fuzzyMatch_method _ _ _ hns, hmap, hmax]
    norm_num
  · rw [fuzzyMatch_is_match _ _ _ hns, hmap, hmax]
    simp only [decide_eq_false_iff_not]
    norm_num
  · rw [fuzzyMatch_all_scores, hmap]
    simp [sortDesc, insertDesc]

/-- The deterministic decision of the six-candidate run is below threshold. -/
theorem sixResults_below_threshold :
    (fuzzyMatch songC5 sixResults 0.9).is_match = false := by
  have hns : ¬ sixResults = [] := by simp [sixResults]
  have hmap : sixResults.map (scoreCandidate songC5) =
      [⟨bgTrack "1", 0, 0, 0, 0, false⟩, ⟨bgTrack "2", 0, 0, 0, 0, false⟩,
        ⟨bgTrack "3", 0, 0, 0, 0, false⟩, ⟨bgTrack "4", 0, 0, 0, 0, false⟩,
        ⟨bgTrack "5", 0, 0, 0, 0, false⟩, ⟨hitTrack, 0.5, 1, 0, 0, false⟩] := by
    simp [sixResults, scoreCandidate_songC5_bg, scoreCandidate_songC5_hit]
  have hmax : maxFrom [⟨bgTrack "1", 0, 0, 0, 0, false⟩,
      ⟨bgTrack "2", 0, 0, 0, 0, false⟩, ⟨bgTrack "3", 0, 0, 0, 0, false⟩,
      ⟨bgTrack "4", 0, 0, 0, 0, false⟩, ⟨bgTrack "5", 0, 0, 0, 0, false⟩,
      (⟨hitTrack, 0.5, 1, 0, 0, false⟩ : FuzzyMatchScore)] 0 = 0.5 := by
    norm_num [maxFrom]
  rw [fuzzyMatch_is_match _ _ _ hns, hmap, hmax]
  simp only [decide_eq_false_iff_not]
  norm_num

/-- **C5 (counterexample)**: in the six-candidate run the AI step is invoked
with the first five search results — the top-scoring sixth candidate is NOT
among them — while the top five by combined score put that candidate first.
The claim's "top 5 candidates ranked by combinedScore" is false. -/
theorem runStandalone_disambiguation_counterexample :
    (runStandalone inputC5 behaviorC5).aiCalledWith =
      some [bgTrack "1", bgTrack "2", bgTrack "3", bgTrack "4", bgTrack "5"] ∧
    topFiveByScore songC5 sixResults 0.9 =
      [hitTrack, bgTrack "1", bgTrack "2", bgTrack "3", bgTrack "4"] ∧
    ¬ ([bgTrack "1", bgTrack "2", bgTrack "3", bgTrack "4", bgTrack "5"] =
        [hitTrack, bgTrack "1", bgTrack "2", bgTrack "3", bgTrack "4"]) := by
  have hns : ¬ sixResults = [] := by simp [sixResults]
  have hmap : sixResults.map (scoreCandidate songC5) =
      [⟨bgTrack "1", 0, 0, 0, 0, false⟩, ⟨bgTrack "2", 0, 0, 0, 0, false⟩,
        ⟨bgTrack "3", 0, 0, 0, 0, false⟩, ⟨bgTrack "4", 0, 0, 0, 0, false⟩,
        ⟨bgTrack "5", 0, 0, 0, 0, false⟩, ⟨hitTrack, 0.5, 1, 0, 0, false⟩] := by
    simp [sixResults, scoreCandidate_songC5_bg, scoreCandidate_songC5_hit]
  have hsort : sortDesc [⟨bgTrack "1", 0, 0, 0, 0, false⟩,
      ⟨bgTrack "2", 0, 0, 0, 0, false⟩, ⟨bgTrack "3", 0, 0, 0, 0, false⟩,
      ⟨bgTrack "4", 0, 0, 0, 0, false⟩, ⟨bgTrack "5", 0, 0, 0, 0, false⟩,
      (⟨hitTrack, 0.5, 1, 0, 0, false⟩ : FuzzyMatchScore)] =
      [⟨hitTrack, 0.5, 1, 0, 0, false⟩, ⟨bgTrack "1", 0, 0, 0, 0, false⟩,
        ⟨bgTrack "2", 0, 0, 0, 0, false⟩, ⟨bgTrack "3", 0, 0, 0, 0, false⟩,
        ⟨bgTrack "4", 0, 0, 0, 0, false⟩, ⟨bgTrack "5", 0, 0, 0, 0, false⟩] := by
    norm_num [sortDesc, insertDesc]
  refine ⟨?_, ?_, by decide⟩
  · rw [runStandalone_search_ok inputC5 behaviorC5 sixResults rfl hns]
    have hcond : (fuzzyMatch inputC5.song_metadata sixResults
        inputC5.match_threshold).is_match = false ∧
        inputC5.use_ai_disambiguation = true :=
      ⟨sixResults_below_threshold, rfl⟩
    rw [afterMatch, if_pos hcond,
      show behaviorC5.ai = Except.ok aiDecline from rfl]
    simp [finishRun_aiCalledWith, sixResults]
  · rw [topFiveByScore, fuzzyMatch_all_scores, hmap, hsort]
    simp

/-- **C6 (counterexample)**: in the cited standalone implementation
(`_ai_disambiguate_claude`) a response with no `URI:`/`REASON:` line RAISES a
`ValueError` instead of resolving to a decision, and a failing
non-authentication backend call crosses the boundary in both implementations
— raw in the standalone variant, as a retryable `AIDisambiguationError` in
the Temporal activity — so "resolves to a decision … never raises an
exception to its caller except for authentication failures" is false as
stated. -/
theorem aiDisambiguate_counterexample :
    aiDisambiguateClaude [trackXY] (.ok "garbage") =
      .error "ValueError: Claude response missing URI or REASON" ∧
    aiDisambiguateClaude [trackXY] (.error "connection timeout") =
      .error "connection timeout" ∧
    aiDisambiguate [trackXY] (.error "connection timeout") =
      .error ⟨"AI disambiguation error: connection timeout", false,
        "AIDisambiguationError"⟩ ∧
    isAuthError "connection timeout" = false := by
  refine ⟨rfl, rfl, rfl, by decide⟩

/-- **C8 (counterexample)**: the query's first structured filter is `track:`,
not `title:` as the claim names it. -/
theorem to_search_query_counterexample :
    SongMetadata.to_search_query { title := "X", artist := "Y" } =
      "track:X artist:Y" ∧
    specSearchQuery { title := "X", artist := "Y" } = "title:X artist:Y" ∧
    ¬ SongMetadata.to_search_query { title := "X", artist := "Y" } =
      specSearchQuery { title := "X", artist := "Y" } := by
  refine ⟨by decide, by decide, by decide⟩

/-! ## Witnesses (concrete instantiations of the hypothesis-bearing theorems) -/

/-- Witness for C1's theorem at `songFull`, `[trackIsrc]`, threshold `0.85`. -/
theorem fuzzyMatch_exact_id_witness :
    ((0.85 : ℚ) ≤ 1) ∧
    ((∀ s ∈ (fuzzyMatch songFull [trackIsrc] 0.85).all_scores,
        isrcTie songFull s.track = true →
          s.combined_score = 1 ∧ s.isrc_match = true) ∧
      ((∃ r ∈ [trackIsrc], isrcTie songFull r = true) →
          (fuzzyMatch songFull [trackIsrc] 0.85).is_match = true ∧
          (fuzzyMatch songFull [trackIsrc] 0.85).confidence = 1) ∧
      (∀ top, (fuzzyMatch songFull [trackIsrc] 0.85).all_scores.head? = some top →
          top.isrc_match = true →
            (fuzzyMatch songFull [trackIsrc] 0.85).is_match = true ∧
            (fuzzyMatch songFull [trackIsrc] 0.85).match_method = "isrc")) :=
  ⟨by norm_num, fuzzyMatch_exact_id songFull [trackIsrc] 0.85 (by norm_num)⟩

/-- Witness for C2's theorem at `songAB`, `[trackXY]`, threshold `0.9`. -/
theorem fuzzyMatch_weighted_no_tie_witness :
    scoreCandidate songAB trackXY ∈ (fuzzyMatch songAB [trackXY] 0.9).all_scores ∧
    isrcTie songAB (scoreCandidate songAB trackXY).track = false ∧
    ((scoreCandidate songAB trackXY).combined_score =
        (scoreCandidate songAB trackXY).title_score * 0.5 +
          (scoreCandidate songAB trackXY).artist_score * 0.35 +
          (scoreCandidate songAB trackXY).album_score * 0.15 ∧
      (scoreCandidate songAB trackXY).isrc_match = false) := by
  have hmem : scoreCandidate songAB trackXY ∈
      (fuzzyMatch songAB [trackXY] (0.9 : ℚ)).all_scores := by
    rw [fuzzyMatch_all_scores]
    exact List.mem_singleton.mpr rfl
  have htie : isrcTie songAB (scoreCandidate songAB trackXY).track = false := by
    rw [scoreCandidate_track]
    decide
  exact ⟨hmem, htie,
    fuzzyMatch_weighted_no_tie songAB [trackXY] 0.9 _ hmem htie⟩

/-- Witness for C3's theorem at `songAB`, `[trackXY]`, threshold `0.9`. -/
theorem fuzzyMatch_decision_witness :
    ((fuzzyMatch songAB [trackXY] 0.9).all_scores.head? =
        some ⟨trackXY, 0, 0, 0, 0, false⟩) ∧
    ((∀ s ∈ (fuzzyMatch songAB [trackXY] 0.9).all_scores,
        s.combined_score ≤
          (⟨trackXY, 0, 0, 0, 0, false⟩ : FuzzyMatchScore).combined_score) ∧
      ((fuzzyMatch songAB [trackXY] 0.9).is_match = true ↔
        (0.9 : ℚ) ≤
          (⟨trackXY, 0, 0, 0, 0, false⟩ : FuzzyMatchScore).combined_score) ∧
      ((fuzzyMatch songAB [trackXY] 0.9).match_method =
        if (0.9 : ℚ) ≤
            (⟨trackXY, 0, 0, 0, 0, false⟩ : FuzzyMatchScore).combined_score then
          (if (⟨trackXY, 0, 0, 0, 0, false⟩ : FuzzyMatchScore).isrc_match then
            "isrc"
          else "fuzzy")
        else "none") ∧
      ((0.9 : ℚ) ≤
          (⟨trackXY, 0, 0, 0, 0, false⟩ : FuzzyMatchScore).combined_score →
        (0 : ℚ) < 0.9 →
          (fuzzyMatch songAB [trackXY] 0.9).matched_track =
            some (⟨trackXY, 0, 0, 0, 0, false⟩ : FuzzyMatchScore).track) ∧
      (¬ (0.9 : ℚ) ≤
          (⟨trackXY, 0, 0, 0, 0, false⟩ : FuzzyMatchScore).combined_score →
        (fuzzyMatch songAB [trackXY] 0.9).matched_track = none)) := by
  have htop : (fuzzyMatch songAB [trackXY] 0.9).all_scores.head? =
      some ⟨trackXY, 0, 0, 0, 0, false⟩ := by
    rw [fuzzyMatch_all_scores]
    simp [scoreCandidate_songAB_trackXY, sortDesc, insertDesc]
  exact ⟨htop, fuzzyMatch_decision songAB [trackXY] 0.9 _ htop⟩

/-- Witness for C5's theorem at the empty-search behavior. -/
theorem runStandalone_disambiguation_witness :
    behaviorEmpty.search = .ok [] ∧
    (((runStandalone inputAB behaviorEmpty).aiCalledWith ≠ none ↔
      (¬ ([] : List SpotifyTrackResult) = [] ∧
        (fuzzyMatch inputAB.song_metadata [] inputAB.match_threshold).is_match =
          false ∧
        inputAB.use_ai_disambiguation = true)) ∧
    ((runStandalone inputAB behaviorEmpty).aiCalledWith = none ∨
      (runStandalone inputAB behaviorEmpty).aiCalledWith =
        some (([] : List SpotifyTrackResult).take 5))) :=
  ⟨rfl, runStandalone_disambiguation inputAB behaviorEmpty [] rfl⟩

/-- Witness for C6's theorem at one candidate and the response `"hello"`. -/
theorem aiDisambiguate_parse_safety_witness :
    ¬ ([trackXY] : List SpotifyTrackResult) = [] ∧
    ((∀ content, (Except.ok "hello" : Except String String) = .ok content →
      aiDisambiguate [trackXY] (.ok "hello") =
        .ok (parseAIResponse [trackXY] content) ∧
      ((uriLine content = none ∨ reasonLine content = none) →
        parseAIResponse [trackXY] content =
          { is_match := false, confidence := 0, matched_track := none,
            match_method := "ai_failed",
            reasoning :=
              "Failed to parse AI response: AI response missing URI or REASON" }) ∧
      (∀ uri, selectedUri content = some uri → ¬ pyUpper uri = "NONE" →
        ([trackXY] : List SpotifyTrackResult).find?
            (fun c => c.spotify_uri == uri) = none →
          (parseAIResponse [trackXY] content).is_match = false ∧
          (parseAIResponse [trackXY] content).match_method = "ai_failed" ∧
          (parseAIResponse [trackXY] content).reasoning =
            "AI returned invalid URI: " ++ uri)) ∧
    (∀ e, (Except.ok "hello" : Except String String) = .error e →
      ∃ err, aiDisambiguate [trackXY] (.ok "hello") = .error err ∧
        err.non_retryable = isAuthError e ∧
        (isAuthError e = true → err.type = "InvalidAPIKeyError") ∧
        (isAuthError e = false → err.type = "AIDisambiguationError")) ∧
    (∀ content, (Except.ok "hello" : Except String String) = .ok content →
      aiDisambiguateClaude [trackXY] (.ok "hello") =
        parseClaudeResponse [trackXY] content ∧
      ((uriLine content = none ∨ reasonLine content = none) →
        parseClaudeResponse [trackXY] content =
          .error "ValueError: Claude response missing URI or REASON") ∧
      (∀ uri, selectedUri content = some uri → ¬ pyUpper uri = "NONE" →
        ([trackXY] : List SpotifyTrackResult).find?
            (fun c => c.spotify_uri == uri) = none →
          parseClaudeResponse [trackXY] content =
            .ok { is_match := false, confidence := 0, matched_track := none,
                  match_method := "ai_failed",
                  reasoning := "Claude returned invalid URI: " ++ uri })) ∧
    (∀ e, (Except.ok "hello" : Except String String) = .error e →
      aiDisambiguateClaude [trackXY] (.ok "hello") = .error e)) :=
  ⟨by decide, aiDisambiguate_parse_safety [trackXY] (.ok "hello") (by decide)⟩

/-- Witness for C7's theorem at the empty playlist state. -/
theorem addTrack_idempotent_witness :
    entryCount [] "u" "p" = 0 ∧
    ((∀ st' : PlaylistState, existsInPlaylist st' "u" "p" = true →
      addTrackToPlaylist st' "u" "p" = ("already_exists", st')) ∧
    (addTrackToPlaylist [] "u" "p").1 = "added" ∧
    entryCount (addTrackToPlaylist [] "u" "p").2 "u" "p" = 1 ∧
    (addTrackToPlaylist (addTrackToPlaylist [] "u" "p").2 "u" "p").1 =
      "already_exists" ∧
    (addTrackToPlaylist (addTrackToPlaylist [] "u" "p").2 "u" "p").2 =
      (addTrackToPlaylist [] "u" "p").2 ∧
    entryCount (addTrackToPlaylist (addTrackToPlaylist [] "u" "p").2 "u" "p").2
      "u" "p" = 1) :=
  ⟨rfl, addTrack_idempotent [] "u" "p" rfl⟩

/-- Witness for C10's theorem at `flakyOutcomes`, three attempts, delay 1, ×2. -/
theorem executeWithRetry_contract_witness :
    1 ≤ 3 ∧
    ((executeWithRetry flakyOutcomes 3 1 2).attempts ≤ 3 ∧
    (∀ k v, k < 3 → (∀ j, j < k → ∃ e, flakyOutcomes j = .error e) →
      flakyOutcomes k = .ok v →
        executeWithRetry flakyOutcomes 3 1 2 =
          { result := .ok v, attempts := k + 1, sleeps := geomDelays 1 2 k }) ∧
    ((∀ j, j < 3 → ∃ e, flakyOutcomes j = .error e) →
      executeWithRetry flakyOutcomes 3 1 2 =
        { result := flakyOutcomes (3 - 1), attempts := 3,
          sleeps := geomDelays 1 2 (3 - 1) })) :=
  ⟨by norm_num, executeWithRetry_contract flakyOutcomes 3 1 2 (by norm_num)⟩

end SpotifySync

